import Mathlib

/-!
Verification of the FinanceFlow backend ledger core.

This file is a shallow embedding of the route handlers of the FinanceFlow
server (the `/api/transactions`, `/api/exchanges`, `/api/budgets` and
`/api/metrics/dashboard` endpoints) together with the SQL schema they run
against.  Monetary amounts (`DECIMAL(15,2)` columns and JS numbers) are
modelled as rationals, table rows as structures, tables as lists, and each
handler as a function from the database state (plus the request data) to the
new database state and the HTTP outcome.  Every `pg` query inside a
`BEGIN`/`COMMIT` block may fail; failure is injected through an explicit
step index, and a caught failure returns the original state (`ROLLBACK`).
-/

/-- Outcome of a request handler: a JSON success payload, a 404 or a 500. -/
inductive ApiResult (α : Type) where
  | ok (value : α)
  | notFound (error : String)
  | serverError (error : String)
deriving DecidableEq, Repr

/-- `true` exactly on the success branch of a handler. -/
def ApiResult.isOk {α : Type} : ApiResult α → Bool
  | .ok _ => true
  | _ => false

/-- A row of the `accounts` table. -/
structure Account where
  id : Nat
  userId : Nat
  name : String
  type : String
  currency : String
  balance : Rat
  isEmergencyFund : Bool
deriving DecidableEq, Repr

/-- A row of the `transactions` table.  `type` is a free `VARCHAR(50)`
(the schema has no CHECK constraint); `account_id`, `category_id` and
`income_source_id` are nullable. -/
structure Txn where
  id : Nat
  userId : Nat
  accountId : Option Nat
  categoryId : Option Nat
  incomeSourceId : Option Nat
  type : String
  amount : Rat
  description : String
  date : String
deriving DecidableEq, Repr

/-- A row of the `exchange_operations` table. -/
structure Exchange where
  id : Nat
  userId : Nat
  fromAccountId : Nat
  toAccountId : Nat
  fromAmount : Rat
  toAmount : Rat
  fromCurrency : String
  toCurrency : String
  exchangeRate : Rat
  date : String
deriving DecidableEq, Repr

/-- The ledger part of the database state. -/
structure DB where
  accounts : List Account
  transactions : List Txn
  exchanges : List Exchange
deriving DecidableEq, Repr

/-- Request body of `POST`/`PUT /api/transactions`, after the handler's
`accountId = accountId || null` normalisation of empty values. -/
structure TxnBody where
  accountId : Option Nat
  categoryId : Option Nat
  incomeSourceId : Option Nat
  type : String
  amount : Rat
  description : String
  date : String
deriving DecidableEq, Repr

/-- Request body of `POST`/`PUT /api/exchanges`. -/
structure ExchBody where
  fromAccountId : Nat
  toAccountId : Nat
  fromAmount : Rat
  toAmount : Rat
  fromCurrency : String
  toCurrency : String
  exchangeRate : Rat
  date : String
deriving DecidableEq, Repr

/-- One row update of
`UPDATE accounts SET balance = balance + $1 WHERE id = $2 AND user_id = $3`. -/
def adj (delta : Rat) (accId uid : Nat) (a : Account) : Account :=
  if a.id = accId ∧ a.userId = uid then { a with balance := a.balance + delta } else a

/-- `UPDATE accounts SET balance = balance + $1 WHERE id = $2 AND user_id = $3`. -/
def adjustBalance (db : DB) (delta : Rat) (accId uid : Nat) : DB :=
  { db with accounts := db.accounts.map (adj delta accId uid) }

/-- The same balance `UPDATE` when the bound account id may be SQL `NULL`
(`WHERE id = NULL` matches no row). -/
def adjustBalanceOpt (db : DB) (delta : Rat) (accId : Option Nat) (uid : Nat) : DB :=
  match accId with
  | none => db
  | some aid => adjustBalance db delta aid uid

/-- A single `client.query` call inside a `BEGIN` block: step `n` of the
handler throws exactly when the injected fault `failAt` names it. -/
def step (failAt : Option Nat) (n : Nat) (d : DB) (f : DB → DB) : Except Unit DB :=
  if failAt = some n then .error () else .ok (f d)

/-- `SELECT * FROM transactions WHERE id = $1 AND user_id = $2` (first row). -/
def findTxn (db : DB) (id uid : Nat) : Option Txn :=
  db.transactions.find? (fun t => t.id == id && t.userId == uid)

/-- `SELECT * FROM exchange_operations WHERE id = $1 AND user_id = $2`. -/
def findExch (db : DB) (id uid : Nat) : Option Exchange :=
  db.exchanges.find? (fun e => e.id == id && e.userId == uid)

/-- The row inserted by
`INSERT INTO transactions (user_id, account_id, ...) VALUES ... RETURNING *`;
`newId` is the value drawn from the `SERIAL` sequence. -/
def mkTxnRecord (uid newId : Nat) (b : TxnBody) : Txn :=
  { id := newId, userId := uid, accountId := b.accountId, categoryId := b.categoryId,
    incomeSourceId := b.incomeSourceId, type := b.type, amount := b.amount,
    description := b.description, date := b.date }

/-- The row inserted by `INSERT INTO exchange_operations ... RETURNING *`. -/
def mkExchRecord (uid newId : Nat) (b : ExchBody) : Exchange :=
  { id := newId, userId := uid, fromAccountId := b.fromAccountId,
    toAccountId := b.toAccountId, fromAmount := b.fromAmount, toAmount := b.toAmount,
    fromCurrency := b.fromCurrency, toCurrency := b.toCurrency,
    exchangeRate := b.exchangeRate, date := b.date }

/-- `const balanceChange = type === 'income' ? amount : -amount;` -/
def forwardDelta (type : String) (amount : Rat) : Rat :=
  if type == "income" then amount else -amount

/-- `const oldBalanceChange = old.type === 'income' ? -old.amount : old.amount;` -/
def reverseDelta (type : String) (amount : Rat) : Rat :=
  if type == "income" then -amount else amount

/-- `UPDATE transactions SET account_id = $1, ... WHERE id = $8 AND user_id = $9`. -/
def updateTxnRecord (db : DB) (id uid : Nat) (b : TxnBody) : DB :=
  { db with transactions := db.transactions.map (fun t =>
      if t.id == id && t.userId == uid then
        { t with accountId := b.accountId, categoryId := b.categoryId,
                 incomeSourceId := b.incomeSourceId, type := b.type,
                 amount := b.amount, description := b.description, date := b.date }
      else t) }

/-- `UPDATE exchange_operations SET from_account_id = $1, ... WHERE id = $9 AND user_id = $10`. -/
def updateExchRecord (db : DB) (id uid : Nat) (b : ExchBody) : DB :=
  { db with exchanges := db.exchanges.map (fun e =>
      if e.id == id && e.userId == uid then
        { e with fromAccountId := b.fromAccountId, toAccountId := b.toAccountId,
                 fromAmount := b.fromAmount, toAmount := b.toAmount,
                 fromCurrency := b.fromCurrency, toCurrency := b.toCurrency,
                 exchangeRate := b.exchangeRate, date := b.date }
      else e) }

/-- `DELETE FROM transactions WHERE id = $1 AND user_id = $2`. -/
def deleteTxnRecord (db : DB) (id uid : Nat) : DB :=
  { db with transactions := db.transactions.filter (fun t => !(t.id == id && t.userId == uid)) }

/-- `DELETE FROM exchange_operations WHERE id = $1 AND user_id = $2`. -/
def deleteExchRecord (db : DB) (id uid : Nat) : DB :=
  { db with exchanges := db.exchanges.filter (fun e => !(e.id == id && e.userId == uid)) }

/-- `POST /api/transactions`: insert the row, then apply the user-scoped
balance update; on any query failure the transaction is rolled back. -/
def postTransaction (db : DB) (uid : Nat) (b : TxnBody) (newId : Nat)
    (failAt : Option Nat) : DB × ApiResult Txn :=
  match step failAt 1 db (fun d =>
      { d with transactions := d.transactions ++ [mkTxnRecord uid newId b] }) with
  | .error _ => (db, .serverError "Erro ao criar transação")
  | .ok d1 =>
    match step failAt 2 d1 (fun d =>
        adjustBalanceOpt d (forwardDelta b.type b.amount) b.accountId uid) with
    | .error _ => (db, .serverError "Erro ao criar transação")
    | .ok d2 => (d2, .ok (mkTxnRecord uid newId b))

/-- `PUT /api/transactions/:id`: fetch (404 if absent for this user),
reverse the old delta, update the row, apply the new delta — all inside one
`BEGIN`/`COMMIT`; every error path rolls back. -/
def putTransaction (db : DB) (uid id : Nat) (b : TxnBody)
    (failAt : Option Nat) : DB × ApiResult Txn :=
  match step failAt 0 db (fun d => d) with
  | .error _ => (db, .serverError "Erro ao atualizar transação")
  | .ok _ =>
    match findTxn db id uid with
    | none => (db, .notFound "Transação não encontrada")
    | some old =>
      match step failAt 1 db (fun d =>
          adjustBalanceOpt d (reverseDelta old.type old.amount) old.accountId uid) with
      | .error _ => (db, .serverError "Erro ao atualizar transação")
      | .ok d1 =>
        match step failAt 2 d1 (fun d => updateTxnRecord d id uid b) with
        | .error _ => (db, .serverError "Erro ao atualizar transação")
        | .ok d2 =>
          match step failAt 3 d2 (fun d =>
              adjustBalanceOpt d (forwardDelta b.type b.amount) b.accountId uid) with
          | .error _ => (db, .serverError "Erro ao atualizar transação")
          | .ok d3 =>
            (d3, .ok { old with accountId := b.accountId, categoryId := b.categoryId,
                                incomeSourceId := b.incomeSourceId, type := b.type,
                                amount := b.amount, description := b.description,
                                date := b.date })

/-- `DELETE /api/transactions/:id`: fetch (404 if absent for this user),
reverse the delta, delete the row — all inside one `BEGIN`/`COMMIT`. -/
def deleteTransaction (db : DB) (uid id : Nat)
    (failAt : Option Nat) : DB × ApiResult String :=
  match step failAt 0 db (fun d => d) with
  | .error _ => (db, .serverError "Erro ao deletar transação")
  | .ok _ =>
    match findTxn db id uid with
    | none => (db, .notFound "Transação não encontrada")
    | some t =>
      match step failAt 1 db (fun d =>
          adjustBalanceOpt d (reverseDelta t.type t.amount) t.accountId uid) with
      | .error _ => (db, .serverError "Erro ao deletar transação")
      | .ok d1 =>
        match step failAt 2 d1 (fun d => deleteTxnRecord d id uid) with
        | .error _ => (db, .serverError "Erro ao deletar transação")
        | .ok d2 => (d2, .ok "Transação deletada com sucesso")

/-- `POST /api/exchanges`: insert the row, debit `fromAccount` by
`fromAmount`, credit `toAccount` by `toAmount`, inside one transaction. -/
def postExchange (db : DB) (uid : Nat) (b : ExchBody) (newId : Nat)
    (failAt : Option Nat) : DB × ApiResult Exchange :=
  match step failAt 1 db (fun d =>
      { d with exchanges := d.exchanges ++ [mkExchRecord uid newId b] }) with
  | .error _ => (db, .serverError "Erro ao criar operação de câmbio")
  | .ok d1 =>
    match step failAt 2 d1 (fun d => adjustBalance d (-b.fromAmount) b.fromAccountId uid) with
    | .error _ => (db, .serverError "Erro ao criar operação de câmbio")
    | .ok d2 =>
      match step failAt 3 d2 (fun d => adjustBalance d b.toAmount b.toAccountId uid) with
      | .error _ => (db, .serverError "Erro ao criar operação de câmbio")
      | .ok d3 => (d3, .ok (mkExchRecord uid newId b))

/-- `PUT /api/exchanges/:id`: fetch, reverse both old legs, update the row,
apply both new legs, inside one transaction. -/
def putExchange (db : DB) (uid id : Nat) (b : ExchBody)
    (failAt : Option Nat) : DB × ApiResult Exchange :=
  match step failAt 0 db (fun d => d) with
  | .error _ => (db, .serverError "Erro ao atualizar operação de câmbio")
  | .ok _ =>
    match findExch db id uid with
    | none => (db, .notFound "Operação não encontrada")
    | some old =>
      match step failAt 1 db (fun d => adjustBalance d old.fromAmount old.fromAccountId uid) with
      | .error _ => (db, .serverError "Erro ao atualizar operação de câmbio")
      | .ok d1 =>
        match step failAt 2 d1 (fun d => adjustBalance d (-old.toAmount) old.toAccountId uid) with
        | .error _ => (db, .serverError "Erro ao atualizar operação de câmbio")
        | .ok d2 =>
          match step failAt 3 d2 (fun d => updateExchRecord d id uid b) with
          | .error _ => (db, .serverError "Erro ao atualizar operação de câmbio")
          | .ok d3 =>
            match step failAt 4 d3 (fun d => adjustBalance d (-b.fromAmount) b.fromAccountId uid) with
            | .error _ => (db, .serverError "Erro ao atualizar operação de câmbio")
            | .ok d4 =>
              match step failAt 5 d4 (fun d => adjustBalance d b.toAmount b.toAccountId uid) with
              | .error _ => (db, .serverError "Erro ao atualizar operação de câmbio")
              | .ok d5 =>
                (d5, .ok { old with fromAccountId := b.fromAccountId,
                                    toAccountId := b.toAccountId,
                                    fromAmount := b.fromAmount, toAmount := b.toAmount,
                                    fromCurrency := b.fromCurrency,
                                    toCurrency := b.toCurrency,
                                    exchangeRate := b.exchangeRate, date := b.date })

/-- `DELETE /api/exchanges/:id`: fetch, reverse both legs, delete the row,
inside one transaction. -/
def deleteExchange (db : DB) (uid id : Nat)
    (failAt : Option Nat) : DB × ApiResult String :=
  match step failAt 0 db (fun d => d) with
  | .error _ => (db, .serverError "Erro ao deletar operação de câmbio")
  | .ok _ =>
    match findExch db id uid with
    | none => (db, .notFound "Operação não encontrada")
    | some e =>
      match step failAt 1 db (fun d => adjustBalance d e.fromAmount e.fromAccountId uid) with
      | .error _ => (db, .serverError "Erro ao deletar operação de câmbio")
      | .ok d1 =>
        match step failAt 2 d1 (fun d => adjustBalance d (-e.toAmount) e.toAccountId uid) with
        | .error _ => (db, .serverError "Erro ao deletar operação de câmbio")
        | .ok d2 =>
          match step failAt 3 d2 (fun d => deleteExchRecord d id uid) with
          | .error _ => (db, .serverError "Erro ao deletar operação de câmbio")
          | .ok d3 => (d3, .ok "Operação deletada com sucesso")

/-! ## Balance lookup and basic lemmas -/

/-- The balance column of the (first) `accounts` row with the given id,
`0` if no such row exists. -/
def balanceOf (db : DB) (aid : Nat) : Rat :=
  match db.accounts.find? (fun a => a.id == aid) with
  | some a => a.balance
  | none => 0

lemma adj_id (delta : Rat) (accId uid : Nat) (a : Account) :
    (adj delta accId uid a).id = a.id := by
  unfold adj; split <;> rfl

lemma adj_userId (delta : Rat) (accId uid : Nat) (a : Account) :
    (adj delta accId uid a).userId = a.userId := by
  unfold adj; split <;> rfl

lemma find?_map_adj (l : List Account) (delta : Rat) (accId uid aid : Nat) :
    (l.map (adj delta accId uid)).find? (fun a => a.id == aid)
      = (l.find? (fun a => a.id == aid)).map (adj delta accId uid) := by
  induction l with
  | nil => rfl
  | cons x xs ih =>
    by_cases h : x.id = aid
    · simp [List.find?_cons, adj_id, h]
    · simp [List.find?_cons, adj_id, h, ih]

lemma find?_adjustBalance (db : DB) (delta : Rat) (accId uid aid : Nat) :
    (adjustBalance db delta accId uid).accounts.find? (fun a => a.id == aid)
      = (db.accounts.find? (fun a => a.id == aid)).map (adj delta accId uid) := by
  unfold adjustBalance
  exact find?_map_adj db.accounts delta accId uid aid

lemma balanceOf_adjustBalance (db : DB) (delta : Rat) (accId uid aid : Nat) :
    balanceOf (adjustBalance db delta accId uid) aid
      = balanceOf db aid +
        (match db.accounts.find? (fun a => a.id == aid) with
         | some a => if a.id = accId ∧ a.userId = uid then delta else 0
         | none => 0) := by
  unfold balanceOf
  rw [find?_adjustBalance]
  cases h : db.accounts.find? (fun a => a.id == aid) with
  | none => simp
  | some a =>
    simp only [Option.map_some']
    unfold adj
    split <;> simp_all

lemma balanceOf_adjust_of_found (db : DB) (delta : Rat) (accId uid : Nat) (a : Account)
    (h : db.accounts.find? (fun x => x.id == accId) = some a) (hu : a.userId = uid) :
    balanceOf (adjustBalance db delta accId uid) accId = balanceOf db accId + delta := by
  have hid : a.id = accId := by
    have := List.find?_some h
    simpa using this
  rw [balanceOf_adjustBalance, h]
  simp [hid, hu]

lemma balanceOf_adjust_ne (db : DB) (delta : Rat) (accId uid aid : Nat)
    (hne : aid ≠ accId) :
    balanceOf (adjustBalance db delta accId uid) aid = balanceOf db aid := by
  rw [balanceOf_adjustBalance]
  cases h : db.accounts.find? (fun a => a.id == aid) with
  | none => simp
  | some a =>
    have hid : a.id = aid := by
      have := List.find?_some h
      simpa using this
    simp [hid, hne]

/-! ## Success-path normal forms of the handlers -/

lemma postTransaction_state (db : DB) (uid : Nat) (b : TxnBody) (newId : Nat) :
    (postTransaction db uid b newId none).1 =
      adjustBalanceOpt { db with transactions := db.transactions ++ [mkTxnRecord uid newId b] }
        (forwardDelta b.type b.amount) b.accountId uid := by
  simp [postTransaction, step]

lemma postTransaction_result (db : DB) (uid : Nat) (b : TxnBody) (newId : Nat) :
    (postTransaction db uid b newId none).2 = .ok (mkTxnRecord uid newId b) := by
  simp [postTransaction, step]

lemma postExchange_state (db : DB) (uid : Nat) (b : ExchBody) (newId : Nat) :
    (postExchange db uid b newId none).1 =
      adjustBalance
        (adjustBalance { db with exchanges := db.exchanges ++ [mkExchRecord uid newId b] }
          (-b.fromAmount) b.fromAccountId uid)
        b.toAmount b.toAccountId uid := by
  simp [postExchange, step]

lemma putTransaction_state (db : DB) (uid id : Nat) (b : TxnBody) (old : Txn)
    (h : findTxn db id uid = some old) :
    (putTransaction db uid id b none).1 =
      adjustBalanceOpt
        (updateTxnRecord
          (adjustBalanceOpt db (reverseDelta old.type old.amount) old.accountId uid)
          id uid b)
        (forwardDelta b.type b.amount) b.accountId uid := by
  simp [putTransaction, step, h]

lemma deleteTransaction_state (db : DB) (uid id : Nat) (t : Txn)
    (h : findTxn db id uid = some t) :
    (deleteTransaction db uid id none).1 =
      deleteTxnRecord
        (adjustBalanceOpt db (reverseDelta t.type t.amount) t.accountId uid) id uid := by
  simp [deleteTransaction, step, h]

lemma putExchange_state (db : DB) (uid id : Nat) (b : ExchBody) (old : Exchange)
    (h : findExch db id uid = some old) :
    (putExchange db uid id b none).1 =
      adjustBalance
        (adjustBalance
          (updateExchRecord
            (adjustBalance
              (adjustBalance db old.fromAmount old.fromAccountId uid)
              (-old.toAmount) old.toAccountId uid)
            id uid b)
          (-b.fromAmount) b.fromAccountId uid)
        b.toAmount b.toAccountId uid := by
  simp [putExchange, step, h]

lemma deleteExchange_state (db : DB) (uid id : Nat) (e : Exchange)
    (h : findExch db id uid = some e) :
    (deleteExchange db uid id none).1 =
      deleteExchRecord
        (adjustBalance
          (adjustBalance db e.fromAmount e.fromAccountId uid)
          (-e.toAmount) e.toAccountId uid)
        id uid := by
  simp [deleteExchange, step, h]

/-! ## C1: atomic rollback of update/delete -/

/-- C1: for every update or delete of a transaction or exchange and every
injected failure point, if the handler does not reach its success response
then the returned state is exactly the state before the operation began —
no partially-applied balance is ever persisted. -/
theorem update_delete_rollback_atomic (db : DB) (uid id : Nat) (bt : TxnBody)
    (be : ExchBody) (failAt : Option Nat) :
    ((putTransaction db uid id bt failAt).2.isOk = false →
       (putTransaction db uid id bt failAt).1 = db) ∧
    ((deleteTransaction db uid id failAt).2.isOk = false →
       (deleteTransaction db uid id failAt).1 = db) ∧
    ((putExchange db uid id be failAt).2.isOk = false →
       (putExchange db uid id be failAt).1 = db) ∧
    ((deleteExchange db uid id failAt).2.isOk = false →
       (deleteExchange db uid id failAt).1 = db) := by
  refine ⟨?_, ?_, ?_, ?_⟩
  · unfold putTransaction
    repeat' split
    all_goals simp [ApiResult.isOk]
  · unfold deleteTransaction
    repeat' split
    all_goals simp [ApiResult.isOk]
  · unfold putExchange
    repeat' split
    all_goals simp [ApiResult.isOk]
  · unfold deleteExchange
    repeat' split
    all_goals simp [ApiResult.isOk]

/-! ## Concrete fixtures -/

/-- Account 1, owned by user 1 (BRL). -/
def accA : Account :=
  { id := 1, userId := 1, name := "Conta Corrente BRL", type := "checking",
    currency := "BRL", balance := 500, isEmergencyFund := false }

/-- Account 2, owned by user 1 (EUR). -/
def accB : Account :=
  { id := 2, userId := 1, name := "Conta EUR", type := "checking",
    currency := "EUR", balance := 300, isEmergencyFund := false }

/-- Account 3, owned by user 2. -/
def accC : Account :=
  { id := 3, userId := 2, name := "Conta de outro usuário", type := "checking",
    currency := "BRL", balance := 50, isEmergencyFund := false }

/-- A stored expense of user 1 on account 1. -/
def txn1 : Txn :=
  { id := 1, userId := 1, accountId := some 1, categoryId := none,
    incomeSourceId := none, type := "expense", amount := 100,
    description := "mercado", date := "2026-02-01" }

/-- A stored exchange of user 1 from account 1 to account 2. -/
def exch1 : Exchange :=
  { id := 1, userId := 1, fromAccountId := 1, toAccountId := 2,
    fromAmount := 100, toAmount := 20, fromCurrency := "BRL", toCurrency := "EUR",
    exchangeRate := 5, date := "2026-02-01" }

/-- A small concrete ledger state used to exercise the theorems. -/
def dbW : DB := { accounts := [accA, accB, accC], transactions := [txn1], exchanges := [exch1] }

/-- A transaction request body: a 100 BRL expense on account 1. -/
def txnBodyW : TxnBody :=
  { accountId := some 1, categoryId := none, incomeSourceId := none,
    type := "expense", amount := 100, description := "mercado", date := "2026-02-02" }

/-- An exchange request body: 100 BRL from account 1 to 20 EUR on account 2. -/
def exchBodyW : ExchBody :=
  { fromAccountId := 1, toAccountId := 2, fromAmount := 100, toAmount := 20,
    fromCurrency := "BRL", toCurrency := "EUR", exchangeRate := 5, date := "2026-02-02" }

/-- Witness for C1: with a failure injected at the mutate step of each
handler, the stored state is returned unchanged. -/
theorem update_delete_rollback_atomic_witness :
    (putTransaction dbW 1 1 txnBodyW (some 2)).1 = dbW ∧
    (deleteTransaction dbW 1 1 (some 2)).1 = dbW ∧
    (putExchange dbW 1 1 exchBodyW (some 3)).1 = dbW ∧
    (deleteExchange dbW 1 1 (some 3)).1 = dbW :=
  ⟨(update_delete_rollback_atomic dbW 1 1 txnBodyW exchBodyW (some 2)).1 (by decide),
   (update_delete_rollback_atomic dbW 1 1 txnBodyW exchBodyW (some 2)).2.1 (by decide),
   (update_delete_rollback_atomic dbW 1 1 txnBodyW exchBodyW (some 3)).2.2.1 (by decide),
   (update_delete_rollback_atomic dbW 1 1 txnBodyW exchBodyW (some 3)).2.2.2 (by decide)⟩

/-! ## C6: not-found aborts with 404 and no change -/

/-- C6: for an update or delete of a transaction or exchange whose id does
not exist for the requesting user (absent or owned by a different user), the
handler answers 404 with the fixed not-found message and the stored state is
completely unchanged. -/
theorem missing_record_not_found (db : DB) (uid id : Nat) (bt : TxnBody) (be : ExchBody)
    (ht : findTxn db id uid = none) (he : findExch db id uid = none) :
    putTransaction db uid id bt none = (db, .notFound "Transação não encontrada") ∧
    deleteTransaction db uid id none = (db, .notFound "Transação não encontrada") ∧
    putExchange db uid id be none = (db, .notFound "Operação não encontrada") ∧
    deleteExchange db uid id none = (db, .notFound "Operação não encontrada") := by
  refine ⟨?_, ?_, ?_, ?_⟩ <;>
    simp [putTransaction, deleteTransaction, putExchange, deleteExchange, step, ht, he]

/-- Witness for C6: user 2 asks for record id 1, which exists but belongs to
user 1 — both lookups are empty, the handlers answer 404 and change nothing. -/
theorem missing_record_not_found_witness :
    putTransaction dbW 2 1 txnBodyW none = (dbW, .notFound "Transação não encontrada") ∧
    deleteTransaction dbW 2 1 none = (dbW, .notFound "Transação não encontrada") ∧
    putExchange dbW 2 1 exchBodyW none = (dbW, .notFound "Operação não encontrada") ∧
    deleteExchange dbW 2 1 none = (dbW, .notFound "Operação não encontrada") :=
  missing_record_not_found dbW 2 1 txnBodyW exchBodyW (by decide) (by decide)

/-! ## C3: signed deltas applied by successful creates -/

/-- C3: a successfully created transaction changes the referenced owned
account's balance by exactly `+amount` for type `income` and `-amount` for
type `expense`; a successfully created exchange changes the owned
`fromAccount` by exactly `-fromAmount` and the owned `toAccount` by exactly
`+toAmount`. -/
theorem create_applies_signed_delta
    (db : DB) (uid newIdT newIdE : Nat) (b : TxnBody) (e : ExchBody)
    (aT aF aTo : Account)
    (hb : b.accountId = some aT.id)
    (hTf : db.accounts.find? (fun x => x.id == aT.id) = some aT)
    (hTu : aT.userId = uid)
    (hFf : db.accounts.find? (fun x => x.id == e.fromAccountId) = some aF)
    (hFu : aF.userId = uid)
    (hTof : db.accounts.find? (fun x => x.id == e.toAccountId) = some aTo)
    (hTou : aTo.userId = uid)
    (hne : e.fromAccountId ≠ e.toAccountId) :
    (b.type = "income" →
       balanceOf (postTransaction db uid b newIdT none).1 aT.id
         = balanceOf db aT.id + b.amount) ∧
    (b.type = "expense" →
       balanceOf (postTransaction db uid b newIdT none).1 aT.id
         = balanceOf db aT.id - b.amount) ∧
    balanceOf (postExchange db uid e newIdE none).1 e.fromAccountId
      = balanceOf db e.fromAccountId - e.fromAmount ∧
    balanceOf (postExchange db uid e newIdE none).1 e.toAccountId
      = balanceOf db e.toAccountId + e.toAmount := by
  have hmain : balanceOf (postTransaction db uid b newIdT none).1 aT.id
      = balanceOf db aT.id + forwardDelta b.type b.amount := by
    rw [postTransaction_state, hb]
    exact balanceOf_adjust_of_found
      { db with transactions := db.transactions ++ [mkTxnRecord uid newIdT b] }
      (forwardDelta b.type b.amount) aT.id uid aT hTf hTu
  have hst := postExchange_state db uid e newIdE
  have hFf' : ({ db with exchanges := db.exchanges ++ [mkExchRecord uid newIdE e] } : DB).accounts.find?
      (fun x => x.id == e.fromAccountId) = some aF := hFf
  have hTof' : ({ db with exchanges := db.exchanges ++ [mkExchRecord uid newIdE e] } : DB).accounts.find?
      (fun x => x.id == e.toAccountId) = some aTo := hTof
  have hfrom : balanceOf (postExchange db uid e newIdE none).1 e.fromAccountId
      = balanceOf db e.fromAccountId - e.fromAmount := by
    rw [hst, balanceOf_adjust_ne _ _ _ _ _ hne,
        balanceOf_adjust_of_found _ (-e.fromAmount) e.fromAccountId uid aF hFf' hFu]
    have : balanceOf { db with exchanges := db.exchanges ++ [mkExchRecord uid newIdE e] }
        e.fromAccountId = balanceOf db e.fromAccountId := rfl
    rw [this]; ring
  have hto : balanceOf (postExchange db uid e newIdE none).1 e.toAccountId
      = balanceOf db e.toAccountId + e.toAmount := by
    have hfind2 : (adjustBalance
        { db with exchanges := db.exchanges ++ [mkExchRecord uid newIdE e] }
        (-e.fromAmount) e.fromAccountId uid).accounts.find?
          (fun x => x.id == e.toAccountId)
        = some (adj (-e.fromAmount) e.fromAccountId uid aTo) := by
      rw [find?_adjustBalance, hTof']; rfl
    have hu2 : (adj (-e.fromAmount) e.fromAccountId uid aTo).userId = uid := by
      rw [adj_userId]; exact hTou
    rw [hst, balanceOf_adjust_of_found _ e.toAmount e.toAccountId uid _ hfind2 hu2,
        balanceOf_adjust_ne _ _ _ _ _ (Ne.symm hne)]
    have : balanceOf { db with exchanges := db.exchanges ++ [mkExchRecord uid newIdE e] }
        e.toAccountId = balanceOf db e.toAccountId := rfl
    rw [this]
  refine ⟨?_, ?_, hfrom, hto⟩
  · intro hty
    rw [hmain]; unfold forwardDelta; rw [hty]; simp
  · intro hty
    rw [hmain]; unfold forwardDelta; rw [hty]; simp; ring

/-- Witness for C3: creating a 100 BRL expense on account 1 and exchanging
100 BRL from account 1 into 20 EUR on account 2 changes the balances by the
signed deltas. -/
theorem create_applies_signed_delta_witness :
    balanceOf (postTransaction dbW 1 txnBodyW 10 none).1 accA.id
      = balanceOf dbW accA.id - txnBodyW.amount ∧
    balanceOf (postExchange dbW 1 exchBodyW 11 none).1 exchBodyW.fromAccountId
      = balanceOf dbW exchBodyW.fromAccountId - exchBodyW.fromAmount ∧
    balanceOf (postExchange dbW 1 exchBodyW 11 none).1 exchBodyW.toAccountId
      = balanceOf dbW exchBodyW.toAccountId + exchBodyW.toAmount :=
  have h := create_applies_signed_delta dbW 1 10 11 txnBodyW exchBodyW accA accA accB
    (by decide) (by decide) (by decide) (by decide) (by decide) (by decide) (by decide)
    (by decide)
  ⟨h.2.1 (by decide), h.2.2.1, h.2.2.2⟩

/-! ## C4: update re-homing -/

lemma find?_append_right {α : Type} (l : List α) (t : α) (p : α → Bool)
    (hl : ∀ x ∈ l, p x = false) (ht : p t = true) :
    (l ++ [t]).find? p = some t := by
  induction l with
  | nil => simp [List.find?, ht]
  | cons x xs ih =>
    simp only [List.cons_append, List.find?]
    rw [hl x (by simp)]
    exact ih (fun y hy => hl y (by simp [hy]))

lemma reverseDelta_eq_neg (ty : String) (m : Rat) :
    reverseDelta ty m = -forwardDelta ty m := by
  by_cases h : ty == "income" <;> simp [forwardDelta, reverseDelta, h]

lemma balanceOf_updateTxnRecord (db : DB) (id uid : Nat) (b : TxnBody) (aid : Nat) :
    balanceOf (updateTxnRecord db id uid b) aid = balanceOf db aid := rfl

lemma balanceOf_updateExchRecord (db : DB) (id uid : Nat) (b : ExchBody) (aid : Nat) :
    balanceOf (updateExchRecord db id uid b) aid = balanceOf db aid := rfl

/-- C4: creating a transaction on account A and then updating it so that it
references account B (both owned by the requester) reverses the old delta on
A and applies the new delta on B: A's balance is net unchanged, and B's
balance changes by the new signed delta (for a $100 expense re-homed to B,
B decreases by 100 — A is never decreased twice). -/
theorem update_rehoming
    (db : DB) (uid newId : Nat) (b bNew : TxnBody) (aA aB : Account)
    (hbA : b.accountId = some aA.id)
    (hbB : bNew.accountId = some aB.id)
    (hAf : db.accounts.find? (fun x => x.id == aA.id) = some aA)
    (hAu : aA.userId = uid)
    (hBf : db.accounts.find? (fun x => x.id == aB.id) = some aB)
    (hBu : aB.userId = uid)
    (hABne : aA.id ≠ aB.id)
    (hfresh : ∀ t ∈ db.transactions, t.id ≠ newId) :
    balanceOf (putTransaction (postTransaction db uid b newId none).1 uid newId bNew none).1 aA.id
      = balanceOf db aA.id ∧
    balanceOf (putTransaction (postTransaction db uid b newId none).1 uid newId bNew none).1 aB.id
      = balanceOf db aB.id + forwardDelta bNew.type bNew.amount ∧
    (bNew.type = "expense" →
      balanceOf (putTransaction (postTransaction db uid b newId none).1 uid newId bNew none).1 aB.id
        = balanceOf db aB.id - bNew.amount) := by
  have hfound : findTxn (postTransaction db uid b newId none).1 newId uid
      = some (mkTxnRecord uid newId b) := by
    rw [postTransaction_state, hbA]
    show (db.transactions ++ [mkTxnRecord uid newId b]).find?
        (fun t => t.id == newId && t.userId == uid) = some (mkTxnRecord uid newId b)
    refine find?_append_right _ _ _ (fun x hx => ?_) (by simp [mkTxnRecord])
    simp [hfresh x hx]
  have hfull : (putTransaction (postTransaction db uid b newId none).1 uid newId bNew none).1
      = adjustBalance
          (updateTxnRecord
            (adjustBalance
              (adjustBalance
                { db with transactions := db.transactions ++ [mkTxnRecord uid newId b] }
                (forwardDelta b.type b.amount) aA.id uid)
              (reverseDelta b.type b.amount) aA.id uid)
            newId uid bNew)
          (forwardDelta bNew.type bNew.amount) aB.id uid := by
    rw [putTransaction_state _ _ _ _ _ hfound, postTransaction_state]
    simp only [mkTxnRecord, hbA, hbB, adjustBalanceOpt]
  have hA2 : balanceOf (putTransaction (postTransaction db uid b newId none).1 uid newId bNew none).1 aA.id
      = balanceOf db aA.id := by
    rw [hfull, balanceOf_adjust_ne _ _ _ _ _ hABne, balanceOf_updateTxnRecord]
    have hAf1 : (adjustBalance
        { db with transactions := db.transactions ++ [mkTxnRecord uid newId b] }
        (forwardDelta b.type b.amount) aA.id uid).accounts.find?
          (fun x => x.id == aA.id)
        = some (adj (forwardDelta b.type b.amount) aA.id uid aA) := by
      rw [find?_adjustBalance]
      have : ({ db with transactions := db.transactions ++ [mkTxnRecord uid newId b] } : DB).accounts.find?
          (fun x => x.id == aA.id) = some aA := hAf
      rw [this]; rfl
    rw [balanceOf_adjust_of_found _ _ _ uid _ hAf1 (by rw [adj_userId]; exact hAu)]
    have hstep1 : balanceOf (adjustBalance
        { db with transactions := db.transactions ++ [mkTxnRecord uid newId b] }
        (forwardDelta b.type b.amount) aA.id uid) aA.id
        = balanceOf db aA.id + forwardDelta b.type b.amount := by
      have : ({ db with transactions := db.transactions ++ [mkTxnRecord uid newId b] } : DB).accounts.find?
          (fun x => x.id == aA.id) = some aA := hAf
      rw [balanceOf_adjust_of_found _ _ _ uid aA this hAu]; rfl
    rw [hstep1, reverseDelta_eq_neg]; ring
  have hB2 : balanceOf (putTransaction (postTransaction db uid b newId none).1 uid newId bNew none).1 aB.id
      = balanceOf db aB.id + forwardDelta bNew.type bNew.amount := by
    have hBf2 : (updateTxnRecord
        (adjustBalance
          (adjustBalance
            { db with transactions := db.transactions ++ [mkTxnRecord uid newId b] }
            (forwardDelta b.type b.amount) aA.id uid)
          (reverseDelta b.type b.amount) aA.id uid)
        newId uid bNew).accounts.find? (fun x => x.id == aB.id)
        = some (adj (reverseDelta b.type b.amount) aA.id uid
            (adj (forwardDelta b.type b.amount) aA.id uid aB)) := by
      show (adjustBalance
          (adjustBalance
            { db with transactions := db.transactions ++ [mkTxnRecord uid newId b] }
            (forwardDelta b.type b.amount) aA.id uid)
          (reverseDelta b.type b.amount) aA.id uid).accounts.find?
            (fun x => x.id == aB.id) = _
      rw [find?_adjustBalance, find?_adjustBalance]
      have : ({ db with transactions := db.transactions ++ [mkTxnRecord uid newId b] } : DB).accounts.find?
          (fun x => x.id == aB.id) = some aB := hBf
      rw [this]; rfl
    rw [hfull, balanceOf_adjust_of_found _ _ _ uid _ hBf2
        (by rw [adj_userId, adj_userId]; exact hBu),
      balanceOf_updateTxnRecord,
      balanceOf_adjust_ne _ _ _ _ _ (Ne.symm hABne),
      balanceOf_adjust_ne _ _ _ _ _ (Ne.symm hABne)]
    rfl
  exact ⟨hA2, hB2, fun hty => by
    rw [hB2]; unfold forwardDelta; rw [hty]; simp; ring⟩

/-- The re-homed request body: the same 100 expense, now on account 2. -/
def txnBodyW2 : TxnBody :=
  { accountId := some 2, categoryId := none, incomeSourceId := none,
    type := "expense", amount := 100, description := "mercado", date := "2026-02-02" }

/-- Witness for C4: a 100 BRL expense created on account 1 and re-homed to
account 2 leaves account 1 net unchanged and decreases account 2 by 100. -/
theorem update_rehoming_witness :
    balanceOf (putTransaction (postTransaction dbW 1 txnBodyW 10 none).1 1 10 txnBodyW2 none).1 accA.id
      = balanceOf dbW accA.id ∧
    balanceOf (putTransaction (postTransaction dbW 1 txnBodyW 10 none).1 1 10 txnBodyW2 none).1 accB.id
      = balanceOf dbW accB.id - txnBodyW2.amount :=
  have h := update_rehoming dbW 1 10 txnBodyW txnBodyW2 accA accB
    (by decide) (by decide) (by decide) (by decide) (by decide) (by decide) (by decide)
    (by decide)
  ⟨h.1, h.2.2 (by decide)⟩

/-! ## C5: exchange round-trip -/

lemma adj_eq (delta : Rat) (x u : Nat) (a : Account) :
    adj delta x u a
      = { a with balance := a.balance + if a.id = x ∧ a.userId = u then delta else 0 } := by
  unfold adj
  split
  · simp_all
  · simp_all

lemma account_update_eta (a : Account) (v : Rat) (h : v = a.balance) :
    { a with balance := v } = a := by
  cases a; simp_all

lemma map_id_of_pointwise {α : Type} (l : List α) (f : α → α) (h : ∀ a ∈ l, f a = a) :
    l.map f = l := by
  induction l with
  | nil => rfl
  | cons x xs ih =>
    simp only [List.map_cons, h x (by simp)]
    rw [ih (fun y hy => h y (by simp [hy]))]

lemma filter_id_of_pointwise {α : Type} (l : List α) (p : α → Bool) (h : ∀ x ∈ l, p x = true) :
    l.filter p = l := by
  induction l with
  | nil => rfl
  | cons x xs ih =>
    simp only [List.filter, h x (by simp)]
    rw [ih (fun y hy => h y (by simp [hy]))]

lemma postExchange_balanceOf_from (db : DB) (uid newId : Nat) (e : ExchBody) (aF : Account)
    (hFf : db.accounts.find? (fun x => x.id == e.fromAccountId) = some aF)
    (hFu : aF.userId = uid)
    (hne : e.fromAccountId ≠ e.toAccountId) :
    balanceOf (postExchange db uid e newId none).1 e.fromAccountId
      = balanceOf db e.fromAccountId - e.fromAmount := by
  have hFf' : ({ db with exchanges := db.exchanges ++ [mkExchRecord uid newId e] } : DB).accounts.find?
      (fun x => x.id == e.fromAccountId) = some aF := hFf
  rw [postExchange_state, balanceOf_adjust_ne _ _ _ _ _ hne,
      balanceOf_adjust_of_found _ (-e.fromAmount) e.fromAccountId uid aF hFf' hFu]
  have : balanceOf { db with exchanges := db.exchanges ++ [mkExchRecord uid newId e] }
      e.fromAccountId = balanceOf db e.fromAccountId := rfl
  rw [this]; ring

lemma postExchange_balanceOf_to (db : DB) (uid newId : Nat) (e : ExchBody) (aTo : Account)
    (hTof : db.accounts.find? (fun x => x.id == e.toAccountId) = some aTo)
    (hTou : aTo.userId = uid)
    (hne : e.fromAccountId ≠ e.toAccountId) :
    balanceOf (postExchange db uid e newId none).1 e.toAccountId
      = balanceOf db e.toAccountId + e.toAmount := by
  have hTof' : ({ db with exchanges := db.exchanges ++ [mkExchRecord uid newId e] } : DB).accounts.find?
      (fun x => x.id == e.toAccountId) = some aTo := hTof
  have hfind2 : (adjustBalance
      { db with exchanges := db.exchanges ++ [mkExchRecord uid newId e] }
      (-e.fromAmount) e.fromAccountId uid).accounts.find?
        (fun x => x.id == e.toAccountId)
      = some (adj (-e.fromAmount) e.fromAccountId uid aTo) := by
    rw [find?_adjustBalance, hTof']; rfl
  rw [postExchange_state,
      balanceOf_adjust_of_found _ e.toAmount e.toAccountId uid _ hfind2
        (by rw [adj_userId]; exact hTou),
      balanceOf_adjust_ne _ _ _ _ _ (Ne.symm hne)]
  rfl

lemma DB.eq_of_parts (d1 d2 : DB) (h1 : d1.accounts = d2.accounts)
    (h2 : d1.transactions = d2.transactions) (h3 : d1.exchanges = d2.exchanges) :
    d1 = d2 := by
  cases d1; cases d2; simp_all

/-- C5: creating an exchange moving `fromAmount` out of owned account A into
`toAmount` on owned account B (A ≠ B) decreases A by `fromAmount` and
increases B by `toAmount`, and deleting that exchange restores the stored
state — in particular both balances — exactly to what it was before the
exchange was created. -/
theorem exchange_round_trip
    (db : DB) (uid newId : Nat) (e : ExchBody) (aF aTo : Account)
    (hFf : db.accounts.find? (fun x => x.id == e.fromAccountId) = some aF)
    (hFu : aF.userId = uid)
    (hTof : db.accounts.find? (fun x => x.id == e.toAccountId) = some aTo)
    (hTou : aTo.userId = uid)
    (hne : e.fromAccountId ≠ e.toAccountId)
    (hfresh : ∀ x ∈ db.exchanges, x.id ≠ newId) :
    balanceOf (postExchange db uid e newId none).1 e.fromAccountId
      = balanceOf db e.fromAccountId - e.fromAmount ∧
    balanceOf (postExchange db uid e newId none).1 e.toAccountId
      = balanceOf db e.toAccountId + e.toAmount ∧
    (deleteExchange (postExchange db uid e newId none).1 uid newId none).1 = db := by
  refine ⟨postExchange_balanceOf_from db uid newId e aF hFf hFu hne,
          postExchange_balanceOf_to db uid newId e aTo hTof hTou hne, ?_⟩
  have hfound : findExch (postExchange db uid e newId none).1 newId uid
      = some (mkExchRecord uid newId e) := by
    rw [postExchange_state]
    show (db.exchanges ++ [mkExchRecord uid newId e]).find?
        (fun x => x.id == newId && x.userId == uid) = some (mkExchRecord uid newId e)
    refine find?_append_right _ _ _ (fun x hx => ?_) (by simp [mkExchRecord])
    simp [hfresh x hx]
  rw [deleteExchange_state _ _ _ _ hfound, postExchange_state]
  refine DB.eq_of_parts _ _ ?_ rfl ?_
  · show ((((db.accounts.map
        (adj (-e.fromAmount) e.fromAccountId uid)).map
        (adj e.toAmount e.toAccountId uid)).map
        (adj (mkExchRecord uid newId e).fromAmount (mkExchRecord uid newId e).fromAccountId uid)).map
        (adj (-(mkExchRecord uid newId e).toAmount) (mkExchRecord uid newId e).toAccountId uid))
      = db.accounts
    simp only [mkExchRecord]
    rw [List.map_map, List.map_map, List.map_map]
    refine map_id_of_pointwise _ _ (fun a _ => ?_)
    simp only [Function.comp]
    rw [adj_eq, adj_eq, adj_eq, adj_eq]
    simp only
    refine account_update_eta _ _ ?_
    by_cases h1 : a.id = e.fromAccountId ∧ a.userId = uid <;>
      by_cases h2 : a.id = e.toAccountId ∧ a.userId = uid <;>
        simp [h1, h2, hne, Ne.symm hne]
  · show ((db.exchanges ++ [mkExchRecord uid newId e]).filter
        (fun x => !(x.id == newId && x.userId == uid))) = db.exchanges
    rw [List.filter_append]
    have h1 : ([mkExchRecord uid newId e].filter
        (fun x => !(x.id == newId && x.userId == uid))) = [] := by
      simp [List.filter, mkExchRecord]
    rw [h1, List.append_nil]
    exact filter_id_of_pointwise _ _ (fun x hx => by simp [hfresh x hx])

/-- Witness for C5: the 100 BRL → 20 EUR exchange between accounts 1 and 2
applies −100/+20 and deleting it restores the original state exactly. -/
theorem exchange_round_trip_witness :
    balanceOf (postExchange dbW 1 exchBodyW 20 none).1 exchBodyW.fromAccountId
      = balanceOf dbW exchBodyW.fromAccountId - exchBodyW.fromAmount ∧
    balanceOf (postExchange dbW 1 exchBodyW 20 none).1 exchBodyW.toAccountId
      = balanceOf dbW exchBodyW.toAccountId + exchBodyW.toAmount ∧
    (deleteExchange (postExchange dbW 1 exchBodyW 20 none).1 1 20 none).1 = dbW :=
  exchange_round_trip dbW 1 20 exchBodyW accA accB
    (by decide) (by decide) (by decide) (by decide) (by decide) (by decide)

/-! ## C10: create against a foreign-owned account -/

lemma nodup_map_inj {α β : Type} {f : α → β} {l : List α} (h : (l.map f).Nodup) :
    ∀ x ∈ l, ∀ y ∈ l, f x = f y → x = y := by
  induction l with
  | nil => simp
  | cons z zs ih =>
    simp only [List.map_cons, List.nodup_cons] at h
    intro x hx y hy hxy
    rcases List.mem_cons.mp hx with rfl | hx' <;> rcases List.mem_cons.mp hy with rfl | hy'
    · rfl
    · exact absurd (hxy ▸ List.mem_map_of_mem f hy') h.1
    · exact absurd (hxy ▸ List.mem_map_of_mem f hx') h.1
    · exact ih h.2 x hx' y hy' hxy

/-- C10: a transaction create whose `accountId` names an existing account
owned by a different user commits and answers success with the inserted row,
while the user-scoped balance `UPDATE` matches zero rows: no account balance
anywhere changes. -/
theorem cross_user_create_commits_without_balance_change
    (db : DB) (uid newId aid : Nat) (b : TxnBody) (a : Account)
    (hb : b.accountId = some aid)
    (hmem : a ∈ db.accounts) (haid : a.id = aid) (hforeign : a.userId ≠ uid)
    (hnodup : (db.accounts.map (fun x => x.id)).Nodup) :
    (postTransaction db uid b newId none).2 = .ok (mkTxnRecord uid newId b) ∧
    (postTransaction db uid b newId none).1.accounts = db.accounts ∧
    (postTransaction db uid b newId none).1.transactions
      = db.transactions ++ [mkTxnRecord uid newId b] := by
  refine ⟨postTransaction_result db uid b newId, ?_, ?_⟩
  · rw [postTransaction_state, hb]
    show db.accounts.map (adj (forwardDelta b.type b.amount) aid uid) = db.accounts
    refine map_id_of_pointwise _ _ (fun x hx => ?_)
    unfold adj
    rw [if_neg]
    rintro ⟨hxid, hxu⟩
    exact hforeign ((nodup_map_inj hnodup x hx a hmem (hxid.trans haid.symm)) ▸ hxu)
  · rw [postTransaction_state, hb]
    rfl

/-- A request body of user 1 pointing at account 3, owned by user 2. -/
def txnBodyW3 : TxnBody :=
  { accountId := some 3, categoryId := none, incomeSourceId := none,
    type := "income", amount := 100, description := "salário", date := "2026-02-02" }

/-- Witness for C10: user 1 creates an income on user 2's account 3 — the
request succeeds, the row is stored, and every balance is unchanged. -/
theorem cross_user_create_commits_without_balance_change_witness :
    (postTransaction dbW 1 txnBodyW3 10 none).2 = .ok (mkTxnRecord 1 10 txnBodyW3) ∧
    (postTransaction dbW 1 txnBodyW3 10 none).1.accounts = dbW.accounts ∧
    (postTransaction dbW 1 txnBodyW3 10 none).1.transactions
      = dbW.transactions ++ [mkTxnRecord 1 10 txnBodyW3] :=
  cross_user_create_commits_without_balance_change dbW 1 10 3 txnBodyW3 accC
    (by decide) (by decide) (by decide) (by decide) (by decide)

/-! ## C2: the balance/ledger invariant

The signed effect of stored rows on an account id, and the invariant that a
persisted balance equals a base value plus the sum of stored effects. -/

/-- Signed delta a stored transaction row contributes to the account with id
`aid`: `+amount` for `income`, `-amount` otherwise, `0` if it references a
different account (or none). -/
def txnDeltaAt (t : Txn) (aid : Nat) : Rat :=
  if t.accountId = some aid then forwardDelta t.type t.amount else 0

/-- Signed delta a stored exchange row contributes to the account with id
`aid`: `-fromAmount` on its from-leg plus `+toAmount` on its to-leg. -/
def exchDeltaAt (e : Exchange) (aid : Nat) : Rat :=
  (if e.fromAccountId = aid then -e.fromAmount else 0) +
  (if e.toAccountId = aid then e.toAmount else 0)

/-- Sum of the signed deltas of all currently stored rows referencing the
account id. -/
def accountDelta (db : DB) (aid : Nat) : Rat :=
  (db.transactions.map (fun t => txnDeltaAt t aid)).sum +
  (db.exchanges.map (fun e => exchDeltaAt e aid)).sum

/-- The ledger invariant: every stored account's balance is its initial
balance plus the sum of the signed deltas of the stored rows referencing it. -/
def Consistent (base : Nat → Rat) (db : DB) : Prop :=
  ∀ a ∈ db.accounts, a.balance = base a.id + accountDelta db a.id

instance (base : Nat → Rat) (db : DB) : Decidable (Consistent base db) :=
  inferInstanceAs (Decidable (∀ a ∈ db.accounts, a.balance = base a.id + accountDelta db a.id))

/-- One ledger-affecting request (the four-step atomic units of §4.3),
with the id the `SERIAL` sequence hands to a create. -/
inductive Op where
  | createTxn (uid : Nat) (b : TxnBody) (newId : Nat)
  | updateTxn (uid id : Nat) (b : TxnBody)
  | deleteTxn (uid id : Nat)
  | createExch (uid : Nat) (b : ExchBody) (newId : Nat)
  | updateExch (uid id : Nat) (b : ExchBody)
  | deleteExch (uid id : Nat)
deriving DecidableEq, Repr

/-- The state after the corresponding handler runs with no store failure. -/
def applyOp (db : DB) : Op → DB
  | .createTxn uid b newId => (postTransaction db uid b newId none).1
  | .updateTxn uid id b => (putTransaction db uid id b none).1
  | .deleteTxn uid id => (deleteTransaction db uid id none).1
  | .createExch uid b newId => (postExchange db uid b newId none).1
  | .updateExch uid id b => (putExchange db uid id b none).1
  | .deleteExch uid id => (deleteExchange db uid id none).1

/-- Run a sequence of requests. -/
def runOps (db : DB) (ops : List Op) : DB := ops.foldl applyOp db

/-- Every stored account with this id belongs to the requesting user. -/
def ownedRefN (db : DB) (uid aid : Nat) : Bool :=
  db.accounts.all (fun x => !(x.id == aid) || (x.userId == uid))

/-- Ownership for a nullable account reference. -/
def ownedRefO (db : DB) (uid : Nat) : Option Nat → Bool
  | none => true
  | some aid => ownedRefN db uid aid

/-- The operation only references accounts owned by its requester, and a
create draws a fresh id from the sequence. -/
def opOK (db : DB) : Op → Bool
  | .createTxn uid b newId =>
      ownedRefO db uid b.accountId && db.transactions.all (fun t => !(t.id == newId))
  | .updateTxn uid id b =>
      match findTxn db id uid with
      | none => true
      | some old => ownedRefO db uid old.accountId && ownedRefO db uid b.accountId
  | .deleteTxn uid id =>
      match findTxn db id uid with
      | none => true
      | some old => ownedRefO db uid old.accountId
  | .createExch uid b newId =>
      ownedRefN db uid b.fromAccountId && ownedRefN db uid b.toAccountId &&
        db.exchanges.all (fun e => !(e.id == newId))
  | .updateExch uid id b =>
      match findExch db id uid with
      | none => true
      | some old => ownedRefN db uid old.fromAccountId && ownedRefN db uid old.toAccountId &&
          ownedRefN db uid b.fromAccountId && ownedRefN db uid b.toAccountId
  | .deleteExch uid id =>
      match findExch db id uid with
      | none => true
      | some old => ownedRefN db uid old.fromAccountId && ownedRefN db uid old.toAccountId

/-- Each operation of the sequence is valid in the state it runs against. -/
def opsOK (db : DB) : List Op → Bool
  | [] => true
  | op :: ops => opOK db op && opsOK (applyOp db op) ops

/-- Primary-key well-formedness: stored record ids are unique. -/
def DB.WF (db : DB) : Prop :=
  (db.transactions.map (fun t => t.id)).Nodup ∧ (db.exchanges.map (fun e => e.id)).Nodup

instance (db : DB) : Decidable db.WF := by
  unfold DB.WF; infer_instance

lemma putTransaction_none_state (db : DB) (uid id : Nat) (b : TxnBody)
    (h : findTxn db id uid = none) : (putTransaction db uid id b none).1 = db := by
  simp [putTransaction, step, h]

lemma deleteTransaction_none_state (db : DB) (uid id : Nat)
    (h : findTxn db id uid = none) : (deleteTransaction db uid id none).1 = db := by
  simp [deleteTransaction, step, h]

lemma putExchange_none_state (db : DB) (uid id : Nat) (b : ExchBody)
    (h : findExch db id uid = none) : (putExchange db uid id b none).1 = db := by
  simp [putExchange, step, h]

lemma deleteExchange_none_state (db : DB) (uid id : Nat)
    (h : findExch db id uid = none) : (deleteExchange db uid id none).1 = db := by
  simp [deleteExchange, step, h]

/-- Row map applied by the nullable balance `UPDATE` to each account row. -/
def adjOpt (delta : Rat) (accId : Option Nat) (uid : Nat) (a : Account) : Account :=
  match accId with
  | none => a
  | some aid => adj delta aid uid a

lemma accounts_adjustBalanceOpt (db : DB) (delta : Rat) (o : Option Nat) (uid : Nat) :
    (adjustBalanceOpt db delta o uid).accounts = db.accounts.map (adjOpt delta o uid) := by
  cases o with
  | none => exact (map_id_of_pointwise _ _ (fun a _ => rfl)).symm
  | some aid => simp [adjustBalanceOpt, adjOpt, adjustBalance]

lemma transactions_adjustBalanceOpt (db : DB) (delta : Rat) (o : Option Nat) (uid : Nat) :
    (adjustBalanceOpt db delta o uid).transactions = db.transactions := by
  cases o <;> rfl

lemma exchanges_adjustBalanceOpt (db : DB) (delta : Rat) (o : Option Nat) (uid : Nat) :
    (adjustBalanceOpt db delta o uid).exchanges = db.exchanges := by
  cases o <;> rfl

lemma adjOpt_id (delta : Rat) (o : Option Nat) (uid : Nat) (a : Account) :
    (adjOpt delta o uid a).id = a.id := by
  cases o <;> simp [adjOpt, adj_id]

lemma adjOpt_userId (delta : Rat) (o : Option Nat) (uid : Nat) (a : Account) :
    (adjOpt delta o uid a).userId = a.userId := by
  cases o <;> simp [adjOpt, adj_userId]

lemma sum_map_append {α : Type} (l1 l2 : List α) (f : α → Rat) :
    ((l1 ++ l2).map f).sum = (l1.map f).sum + (l2.map f).sum := by
  rw [List.map_append, List.sum_append]

lemma sum_map_filterNot {α : Type} (l : List α) (p : α → Bool) (f : α → Rat) :
    ((l.filter (fun x => !(p x))).map f).sum
      = (l.map f).sum - ((l.filter p).map f).sum := by
  induction l with
  | nil => simp
  | cons x xs ih =>
    by_cases h : p x = true
    · rw [List.filter_cons_of_neg (by simp [h]), ih, List.filter_cons_of_pos h,
          List.map_cons, List.sum_cons, List.map_cons, List.sum_cons]
      ring
    · have h2 : p x = false := by simpa using h
      rw [List.filter_cons_of_pos (by simp [h2]), List.map_cons, List.sum_cons, ih,
          List.filter_cons_of_neg (by simp [h2]), List.map_cons, List.sum_cons]
      ring

lemma sum_map_mapIf {α : Type} (l : List α) (p : α → Bool) (g : α → α) (f : α → Rat) :
    ((l.map (fun x => if p x then g x else x)).map f).sum
      = (l.map f).sum + ((l.filter p).map (fun x => f (g x) - f x)).sum := by
  induction l with
  | nil => simp
  | cons x xs ih =>
    by_cases h : p x = true
    · have hstep : ((x :: xs).map (fun y => if p y then g y else y)).map f
          = f (g x) :: (xs.map (fun y => if p y then g y else y)).map f := by
        simp [h]
      rw [hstep, List.sum_cons, ih, List.filter_cons_of_pos h,
          List.map_cons, List.sum_cons, List.map_cons, List.sum_cons]
      ring
    · have h2 : p x = false := by simpa using h
      have hstep : ((x :: xs).map (fun y => if p y then g y else y)).map f
          = f x :: (xs.map (fun y => if p y then g y else y)).map f := by
        simp [h2]
      rw [hstep, List.sum_cons, ih, List.filter_cons_of_neg (by simp [h2]),
          List.map_cons, List.sum_cons]
      ring

lemma filter_eq_singleton_of_find? {α β : Type} [DecidableEq β]
    (l : List α) (p : α → Bool) (key : α → β) (k : β)
    (hkey : ∀ x, p x = true → key x = k)
    (hnodup : (l.map key).Nodup)
    (x : α) (hfind : l.find? p = some x) :
    l.filter p = [x] := by
  induction l with
  | nil => simp at hfind
  | cons y ys ih =>
    simp only [List.map_cons, List.nodup_cons] at hnodup
    by_cases h : p y = true
    · rw [List.find?_cons_of_pos _ h] at hfind
      injection hfind with hxy
      subst hxy
      rw [List.filter_cons_of_pos h]
      have hnil : ys.filter p = [] := by
        rw [List.filter_eq_nil_iff]
        intro z hz hpz
        exact hnodup.1 ((hkey y h ▸ (hkey z hpz)) ▸ List.mem_map_of_mem key hz)
      rw [hnil]
    · rw [List.find?_cons_of_neg _ h] at hfind
      rw [List.filter_cons_of_neg h]
      exact ih hnodup.2 hfind

lemma adj_balance_owned (delta : Rat) (x uid : Nat) (a : Account)
    (h : a.id = x → a.userId = uid) :
    (adj delta x uid a).balance = a.balance + if a.id = x then delta else 0 := by
  unfold adj
  by_cases hc : a.id = x
  · simp [hc, h hc]
  · simp [hc]

/-- The conditional delta the nullable balance `UPDATE` adds to the row with
id `aid`. -/
def optDelta (delta : Rat) (o : Option Nat) (aid : Nat) : Rat :=
  match o with
  | none => 0
  | some x => if aid = x then delta else 0

lemma adjOpt_balance_owned (delta : Rat) (o : Option Nat) (uid : Nat) (a : Account)
    (h : ∀ x, o = some x → a.id = x → a.userId = uid) :
    (adjOpt delta o uid a).balance = a.balance + optDelta delta o a.id := by
  cases o with
  | none => simp [adjOpt, optDelta]
  | some x =>
    show (adj delta x uid a).balance = a.balance + if a.id = x then delta else 0
    exact adj_balance_owned delta x uid a (h x rfl)

lemma ownedRefN_spec (db : DB) (uid aid : Nat) (h : ownedRefN db uid aid = true)
    (a : Account) (ha : a ∈ db.accounts) (haid : a.id = aid) : a.userId = uid := by
  simp only [ownedRefN, List.all_eq_true] at h
  have := h a ha
  simp [haid] at this
  exact this

lemma ownedRefO_spec (db : DB) (uid : Nat) (o : Option Nat) (h : ownedRefO db uid o = true)
    (a : Account) (ha : a ∈ db.accounts) :
    ∀ x, o = some x → a.id = x → a.userId = uid := by
  intro x ho haid
  subst ho
  exact ownedRefN_spec db uid x h a ha haid

lemma optDelta_fwd_txn (b : TxnBody) (aid : Nat) :
    optDelta (forwardDelta b.type b.amount) b.accountId aid
      = if b.accountId = some aid then forwardDelta b.type b.amount else 0 := by
  cases h : b.accountId with
  | none => simp [optDelta]
  | some x =>
    simp only [optDelta, Option.some.injEq]
    by_cases hax : aid = x
    · subst hax; simp
    · rw [if_neg hax, if_neg (fun hh : x = aid => hax hh.symm)]

lemma optDelta_rev_txn (t : Txn) (aid : Nat) :
    optDelta (reverseDelta t.type t.amount) t.accountId aid = -(txnDeltaAt t aid) := by
  cases h : t.accountId with
  | none => simp [optDelta, txnDeltaAt, h]
  | some x =>
    simp only [optDelta, txnDeltaAt, h, Option.some.injEq, reverseDelta_eq_neg]
    by_cases hax : aid = x
    · subst hax; simp
    · rw [if_neg hax, if_neg (fun hh : x = aid => hax hh.symm), neg_zero]

lemma if_id_comm (d : Rat) (x y : Nat) :
    (if x = y then d else 0) = (if y = x then d else 0) := by
  by_cases h : x = y
  · simp [h]
  · rw [if_neg h, if_neg (fun hh : y = x => h hh.symm)]

/-- The row produced by the `UPDATE transactions SET ...` statement. -/
def replTxn (b : TxnBody) (t : Txn) : Txn :=
  { t with accountId := b.accountId, categoryId := b.categoryId,
           incomeSourceId := b.incomeSourceId, type := b.type,
           amount := b.amount, description := b.description, date := b.date }

/-- The row produced by the `UPDATE exchange_operations SET ...` statement. -/
def replExch (b : ExchBody) (e : Exchange) : Exchange :=
  { e with fromAccountId := b.fromAccountId, toAccountId := b.toAccountId,
           fromAmount := b.fromAmount, toAmount := b.toAmount,
           fromCurrency := b.fromCurrency, toCurrency := b.toCurrency,
           exchangeRate := b.exchangeRate, date := b.date }

lemma transactions_updateTxnRecord (d : DB) (id uid : Nat) (b : TxnBody) :
    (updateTxnRecord d id uid b).transactions
      = d.transactions.map (fun t => if t.id == id && t.userId == uid then replTxn b t else t) :=
  rfl

lemma exchanges_updateExchRecord (d : DB) (id uid : Nat) (b : ExchBody) :
    (updateExchRecord d id uid b).exchanges
      = d.exchanges.map (fun e => if e.id == id && e.userId == uid then replExch b e else e) :=
  rfl

lemma adjOpt_balance_owned2 (d1 : Rat) (o1 : Option Nat) (d2 : Rat) (o2 : Option Nat)
    (uid : Nat) (a : Account)
    (h1 : ∀ x, o1 = some x → a.id = x → a.userId = uid)
    (h2 : ∀ x, o2 = some x → a.id = x → a.userId = uid) :
    (adjOpt d2 o2 uid (adjOpt d1 o1 uid a)).balance
      = a.balance + optDelta d1 o1 a.id + optDelta d2 o2 a.id := by
  rw [adjOpt_balance_owned d2 o2 uid _
        (fun x hx haid => by rw [adjOpt_userId]; exact h2 x hx (by rwa [adjOpt_id] at haid)),
      adjOpt_id, adjOpt_balance_owned d1 o1 uid a h1]

lemma txnDeltaAt_mk (uid newId : Nat) (b : TxnBody) (aid : Nat) :
    txnDeltaAt (mkTxnRecord uid newId b) aid
      = if b.accountId = some aid then forwardDelta b.type b.amount else 0 := by
  simp [txnDeltaAt, mkTxnRecord]

lemma txnDeltaAt_repl (b : TxnBody) (t : Txn) (aid : Nat) :
    txnDeltaAt (replTxn b t) aid
      = if b.accountId = some aid then forwardDelta b.type b.amount else 0 := by
  simp [txnDeltaAt, replTxn]

lemma consistent_createTxn (base : Nat → Rat) (db : DB) (uid : Nat) (b : TxnBody) (newId : Nat)
    (hok : opOK db (.createTxn uid b newId) = true)
    (hc : Consistent base db) :
    Consistent base (applyOp db (.createTxn uid b newId)) := by
  have hok1 : ownedRefO db uid b.accountId = true := by
    simp only [opOK, Bool.and_eq_true] at hok; exact hok.1
  intro a' ha'
  have hacc : (applyOp db (Op.createTxn uid b newId)).accounts
      = db.accounts.map (adjOpt (forwardDelta b.type b.amount) b.accountId uid) := by
    show (postTransaction db uid b newId none).1.accounts = _
    rw [postTransaction_state, accounts_adjustBalanceOpt]
  rw [hacc] at ha'
  obtain ⟨a, ha, rfl⟩ := List.mem_map.mp ha'
  have htx : (applyOp db (Op.createTxn uid b newId)).transactions
      = db.transactions ++ [mkTxnRecord uid newId b] := by
    show (postTransaction db uid b newId none).1.transactions = _
    rw [postTransaction_state, transactions_adjustBalanceOpt]
  have hex : (applyOp db (Op.createTxn uid b newId)).exchanges = db.exchanges := by
    show (postTransaction db uid b newId none).1.exchanges = _
    rw [postTransaction_state, exchanges_adjustBalanceOpt]
  rw [adjOpt_balance_owned _ _ _ _ (ownedRefO_spec db uid b.accountId hok1 a ha), adjOpt_id]
  unfold accountDelta
  rw [htx, hex, sum_map_append]
  have hone : ([mkTxnRecord uid newId b].map (fun t => txnDeltaAt t a.id)).sum
      = txnDeltaAt (mkTxnRecord uid newId b) a.id := by simp
  rw [hone, txnDeltaAt_mk]
  have hold := hc a ha
  unfold accountDelta at hold
  rw [hold, optDelta_fwd_txn]
  ring

lemma consistent_updateTxn (base : Nat → Rat) (db : DB) (uid id : Nat) (b : TxnBody)
    (hwf : db.WF)
    (hok : opOK db (.updateTxn uid id b) = true)
    (hc : Consistent base db) :
    Consistent base (applyOp db (.updateTxn uid id b)) := by
  cases hfind : findTxn db id uid with
  | none =>
    have h : applyOp db (.updateTxn uid id b) = db := putTransaction_none_state db uid id b hfind
    rw [h]; exact hc
  | some old =>
    have hok' : ownedRefO db uid old.accountId = true ∧ ownedRefO db uid b.accountId = true := by
      simp only [opOK, hfind, Bool.and_eq_true] at hok; exact hok
    intro a' ha'
    have hstate := putTransaction_state db uid id b old hfind
    have hacc : (applyOp db (Op.updateTxn uid id b)).accounts
        = (db.accounts.map (adjOpt (reverseDelta old.type old.amount) old.accountId uid)).map
            (adjOpt (forwardDelta b.type b.amount) b.accountId uid) := by
      show (putTransaction db uid id b none).1.accounts = _
      rw [hstate, accounts_adjustBalanceOpt]
      congr 1
      show (adjustBalanceOpt db (reverseDelta old.type old.amount) old.accountId uid).accounts = _
      rw [accounts_adjustBalanceOpt]
    rw [hacc, List.map_map] at ha'
    obtain ⟨a, ha, rfl⟩ := List.mem_map.mp ha'
    have htx : (applyOp db (Op.updateTxn uid id b)).transactions
        = db.transactions.map (fun t => if t.id == id && t.userId == uid then replTxn b t else t) := by
      show (putTransaction db uid id b none).1.transactions = _
      rw [hstate, transactions_adjustBalanceOpt, transactions_updateTxnRecord,
          transactions_adjustBalanceOpt]
    have hex : (applyOp db (Op.updateTxn uid id b)).exchanges = db.exchanges := by
      show (putTransaction db uid id b none).1.exchanges = _
      rw [hstate, exchanges_adjustBalanceOpt]
      show (adjustBalanceOpt db (reverseDelta old.type old.amount) old.accountId uid).exchanges = _
      rw [exchanges_adjustBalanceOpt]
    have hfilter : db.transactions.filter (fun t => t.id == id && t.userId == uid) = [old] := by
      refine filter_eq_singleton_of_find? _ _ (fun t => t.id) id ?_ hwf.1 old hfind
      intro x hx
      simp only [Bool.and_eq_true, beq_iff_eq] at hx
      exact hx.1
    show (adjOpt (forwardDelta b.type b.amount) b.accountId uid
        (adjOpt (reverseDelta old.type old.amount) old.accountId uid a)).balance = _
    rw [adjOpt_balance_owned2 _ _ _ _ _ _
          (ownedRefO_spec db uid old.accountId hok'.1 a ha)
          (ownedRefO_spec db uid b.accountId hok'.2 a ha)]
    simp only [Function.comp_apply]
    rw [adjOpt_id, adjOpt_id]
    unfold accountDelta
    rw [htx, hex, sum_map_mapIf, hfilter]
    have hone : ([old].map (fun t => txnDeltaAt (replTxn b t) a.id - txnDeltaAt t a.id)).sum
        = txnDeltaAt (replTxn b old) a.id - txnDeltaAt old a.id := by simp
    rw [hone, txnDeltaAt_repl]
    have hold := hc a ha
    unfold accountDelta at hold
    rw [hold, optDelta_rev_txn, optDelta_fwd_txn]
    ring

lemma consistent_deleteTxn (base : Nat → Rat) (db : DB) (uid id : Nat)
    (hwf : db.WF)
    (hok : opOK db (.deleteTxn uid id) = true)
    (hc : Consistent base db) :
    Consistent base (applyOp db (.deleteTxn uid id)) := by
  cases hfind : findTxn db id uid with
  | none =>
    have h : applyOp db (.deleteTxn uid id) = db := deleteTransaction_none_state db uid id hfind
    rw [h]; exact hc
  | some old =>
    have hok' : ownedRefO db uid old.accountId = true := by
      simp only [opOK, hfind] at hok; exact hok
    intro a' ha'
    have hstate := deleteTransaction_state db uid id old hfind
    have hacc : (applyOp db (Op.deleteTxn uid id)).accounts
        = db.accounts.map (adjOpt (reverseDelta old.type old.amount) old.accountId uid) := by
      show (deleteTransaction db uid id none).1.accounts = _
      rw [hstate]
      show (adjustBalanceOpt db (reverseDelta old.type old.amount) old.accountId uid).accounts = _
      rw [accounts_adjustBalanceOpt]
    rw [hacc] at ha'
    obtain ⟨a, ha, rfl⟩ := List.mem_map.mp ha'
    have htx : (applyOp db (Op.deleteTxn uid id)).transactions
        = db.transactions.filter (fun t => !(t.id == id && t.userId == uid)) := by
      show (deleteTransaction db uid id none).1.transactions = _
      rw [hstate]
      show ((adjustBalanceOpt db (reverseDelta old.type old.amount) old.accountId uid).transactions.filter _) = _
      rw [transactions_adjustBalanceOpt]
    have hex : (applyOp db (Op.deleteTxn uid id)).exchanges = db.exchanges := by
      show (deleteTransaction db uid id none).1.exchanges = _
      rw [hstate]
      show (adjustBalanceOpt db (reverseDelta old.type old.amount) old.accountId uid).exchanges = _
      rw [exchanges_adjustBalanceOpt]
    have hfilter : db.transactions.filter (fun t => t.id == id && t.userId == uid) = [old] := by
      refine filter_eq_singleton_of_find? _ _ (fun t => t.id) id ?_ hwf.1 old hfind
      intro x hx
      simp only [Bool.and_eq_true, beq_iff_eq] at hx
      exact hx.1
    rw [adjOpt_balance_owned _ _ _ _ (ownedRefO_spec db uid old.accountId hok' a ha), adjOpt_id]
    unfold accountDelta
    rw [htx, hex, sum_map_filterNot, hfilter]
    have hone : ([old].map (fun t => txnDeltaAt t a.id)).sum = txnDeltaAt old a.id := by simp
    rw [hone]
    have hold := hc a ha
    unfold accountDelta at hold
    rw [hold, optDelta_rev_txn]
    ring

lemma accounts_adjustBalance (db : DB) (delta : Rat) (x uid : Nat) :
    (adjustBalance db delta x uid).accounts = db.accounts.map (adj delta x uid) := rfl

lemma adj2_balance_owned (d1 : Rat) (x1 : Nat) (d2 : Rat) (x2 uid : Nat) (a : Account)
    (h1 : a.id = x1 → a.userId = uid) (h2 : a.id = x2 → a.userId = uid) :
    (adj d2 x2 uid (adj d1 x1 uid a)).balance
      = a.balance + (if a.id = x1 then d1 else 0) + (if a.id = x2 then d2 else 0) := by
  rw [adj_balance_owned d2 x2 uid _
        (fun hh => by rw [adj_userId]; exact h2 (by rwa [adj_id] at hh)),
      adj_id, adj_balance_owned d1 x1 uid a h1]

lemma adj4_balance_owned (d1 : Rat) (x1 : Nat) (d2 : Rat) (x2 : Nat) (d3 : Rat) (x3 : Nat)
    (d4 : Rat) (x4 uid : Nat) (a : Account)
    (h1 : a.id = x1 → a.userId = uid) (h2 : a.id = x2 → a.userId = uid)
    (h3 : a.id = x3 → a.userId = uid) (h4 : a.id = x4 → a.userId = uid) :
    (adj d4 x4 uid (adj d3 x3 uid (adj d2 x2 uid (adj d1 x1 uid a)))).balance
      = a.balance + (if a.id = x1 then d1 else 0) + (if a.id = x2 then d2 else 0)
        + (if a.id = x3 then d3 else 0) + (if a.id = x4 then d4 else 0) := by
  rw [adj2_balance_owned d3 x3 d4 x4 uid _
        (fun hh => by rw [adj_userId, adj_userId]; exact h3 (by rwa [adj_id, adj_id] at hh))
        (fun hh => by rw [adj_userId, adj_userId]; exact h4 (by rwa [adj_id, adj_id] at hh)),
      adj_id, adj_id, adj2_balance_owned d1 x1 d2 x2 uid a h1 h2]

lemma exchDeltaAt_mk (uid newId : Nat) (b : ExchBody) (aid : Nat) :
    exchDeltaAt (mkExchRecord uid newId b) aid
      = (if b.fromAccountId = aid then -b.fromAmount else 0)
        + (if b.toAccountId = aid then b.toAmount else 0) := by
  simp [exchDeltaAt, mkExchRecord]

lemma exchDeltaAt_repl (b : ExchBody) (e : Exchange) (aid : Nat) :
    exchDeltaAt (replExch b e) aid
      = (if b.fromAccountId = aid then -b.fromAmount else 0)
        + (if b.toAccountId = aid then b.toAmount else 0) := by
  simp [exchDeltaAt, replExch]

lemma consistent_createExch (base : Nat → Rat) (db : DB) (uid : Nat) (b : ExchBody) (newId : Nat)
    (hok : opOK db (.createExch uid b newId) = true)
    (hc : Consistent base db) :
    Consistent base (applyOp db (.createExch uid b newId)) := by
  have hok' : ownedRefN db uid b.fromAccountId = true ∧ ownedRefN db uid b.toAccountId = true := by
    simp only [opOK, Bool.and_eq_true] at hok; exact ⟨hok.1.1, hok.1.2⟩
  intro a' ha'
  have hacc : (applyOp db (Op.createExch uid b newId)).accounts
      = (db.accounts.map (adj (-b.fromAmount) b.fromAccountId uid)).map
          (adj b.toAmount b.toAccountId uid) := by
    show (postExchange db uid b newId none).1.accounts = _
    rw [postExchange_state]; rfl
  rw [hacc, List.map_map] at ha'
  obtain ⟨a, ha, rfl⟩ := List.mem_map.mp ha'
  have htx : (applyOp db (Op.createExch uid b newId)).transactions = db.transactions := by
    show (postExchange db uid b newId none).1.transactions = _
    rw [postExchange_state]
    rfl
  have hex : (applyOp db (Op.createExch uid b newId)).exchanges
      = db.exchanges ++ [mkExchRecord uid newId b] := by
    show (postExchange db uid b newId none).1.exchanges = _
    rw [postExchange_state]
    rfl
  show (adj b.toAmount b.toAccountId uid (adj (-b.fromAmount) b.fromAccountId uid a)).balance = _
  rw [adj2_balance_owned _ _ _ _ _ _
        (fun hh => ownedRefN_spec db uid b.fromAccountId hok'.1 a ha hh)
        (fun hh => ownedRefN_spec db uid b.toAccountId hok'.2 a ha hh)]
  simp only [Function.comp_apply]
  rw [adj_id, adj_id]
  unfold accountDelta
  rw [htx, hex, sum_map_append]
  have hone : ([mkExchRecord uid newId b].map (fun e => exchDeltaAt e a.id)).sum
      = exchDeltaAt (mkExchRecord uid newId b) a.id := by simp
  rw [hone, exchDeltaAt_mk,
      if_id_comm (-b.fromAmount) b.fromAccountId a.id,
      if_id_comm b.toAmount b.toAccountId a.id]
  have hold := hc a ha
  unfold accountDelta at hold
  rw [hold]
  split_ifs <;> ring

lemma consistent_updateExch (base : Nat → Rat) (db : DB) (uid id : Nat) (b : ExchBody)
    (hwf : db.WF)
    (hok : opOK db (.updateExch uid id b) = true)
    (hc : Consistent base db) :
    Consistent base (applyOp db (.updateExch uid id b)) := by
  cases hfind : findExch db id uid with
  | none =>
    have h : applyOp db (.updateExch uid id b) = db := putExchange_none_state db uid id b hfind
    rw [h]; exact hc
  | some old =>
    have hok' : ownedRefN db uid old.fromAccountId = true ∧ ownedRefN db uid old.toAccountId = true ∧
        ownedRefN db uid b.fromAccountId = true ∧ ownedRefN db uid b.toAccountId = true := by
      simp only [opOK, hfind, Bool.and_eq_true] at hok
      exact ⟨hok.1.1.1, hok.1.1.2, hok.1.2, hok.2⟩
    intro a' ha'
    have hstate := putExchange_state db uid id b old hfind
    have hacc : (applyOp db (Op.updateExch uid id b)).accounts
        = ((((db.accounts.map (adj old.fromAmount old.fromAccountId uid)).map
              (adj (-old.toAmount) old.toAccountId uid)).map
              (adj (-b.fromAmount) b.fromAccountId uid)).map
              (adj b.toAmount b.toAccountId uid)) := by
      show (putExchange db uid id b none).1.accounts = _
      rw [hstate]; rfl
    rw [hacc, List.map_map, List.map_map, List.map_map] at ha'
    obtain ⟨a, ha, rfl⟩ := List.mem_map.mp ha'
    have htx : (applyOp db (Op.updateExch uid id b)).transactions = db.transactions := by
      show (putExchange db uid id b none).1.transactions = _
      rw [hstate]; rfl
    have hex : (applyOp db (Op.updateExch uid id b)).exchanges
        = db.exchanges.map (fun e => if e.id == id && e.userId == uid then replExch b e else e) := by
      show (putExchange db uid id b none).1.exchanges = _
      rw [hstate]; rfl
    have hfilter : db.exchanges.filter (fun e => e.id == id && e.userId == uid) = [old] := by
      refine filter_eq_singleton_of_find? _ _ (fun e => e.id) id ?_ hwf.2 old hfind
      intro x hx
      simp only [Bool.and_eq_true, beq_iff_eq] at hx
      exact hx.1
    show (adj b.toAmount b.toAccountId uid (adj (-b.fromAmount) b.fromAccountId uid
        (adj (-old.toAmount) old.toAccountId uid (adj old.fromAmount old.fromAccountId uid a)))).balance = _
    rw [adj4_balance_owned _ _ _ _ _ _ _ _ _ _
          (fun hh => ownedRefN_spec db uid old.fromAccountId hok'.1 a ha hh)
          (fun hh => ownedRefN_spec db uid old.toAccountId hok'.2.1 a ha hh)
          (fun hh => ownedRefN_spec db uid b.fromAccountId hok'.2.2.1 a ha hh)
          (fun hh => ownedRefN_spec db uid b.toAccountId hok'.2.2.2 a ha hh)]
    simp only [Function.comp_apply]
    rw [adj_id, adj_id, adj_id, adj_id]
    unfold accountDelta
    rw [htx, hex, sum_map_mapIf, hfilter]
    have hone : ([old].map (fun e => exchDeltaAt (replExch b e) a.id - exchDeltaAt e a.id)).sum
        = exchDeltaAt (replExch b old) a.id - exchDeltaAt old a.id := by simp
    rw [hone, exchDeltaAt_repl]
    have hold := hc a ha
    unfold accountDelta at hold
    rw [hold]
    unfold exchDeltaAt
    rw [if_id_comm (-b.fromAmount) b.fromAccountId a.id,
        if_id_comm b.toAmount b.toAccountId a.id,
        if_id_comm (-old.fromAmount) old.fromAccountId a.id,
        if_id_comm old.toAmount old.toAccountId a.id]
    split_ifs <;> ring

lemma consistent_deleteExch (base : Nat → Rat) (db : DB) (uid id : Nat)
    (hwf : db.WF)
    (hok : opOK db (.deleteExch uid id) = true)
    (hc : Consistent base db) :
    Consistent base (applyOp db (.deleteExch uid id)) := by
  cases hfind : findExch db id uid with
  | none =>
    have h : applyOp db (.deleteExch uid id) = db := deleteExchange_none_state db uid id hfind
    rw [h]; exact hc
  | some old =>
    have hok' : ownedRefN db uid old.fromAccountId = true ∧ ownedRefN db uid old.toAccountId = true := by
      simp only [opOK, hfind, Bool.and_eq_true] at hok
      exact hok
    intro a' ha'
    have hstate := deleteExchange_state db uid id old hfind
    have hacc : (applyOp db (Op.deleteExch uid id)).accounts
        = ((db.accounts.map (adj old.fromAmount old.fromAccountId uid)).map
            (adj (-old.toAmount) old.toAccountId uid)) := by
      show (deleteExchange db uid id none).1.accounts = _
      rw [hstate]; rfl
    rw [hacc, List.map_map] at ha'
    obtain ⟨a, ha, rfl⟩ := List.mem_map.mp ha'
    have htx : (applyOp db (Op.deleteExch uid id)).transactions = db.transactions := by
      show (deleteExchange db uid id none).1.transactions = _
      rw [hstate]; rfl
    have hex : (applyOp db (Op.deleteExch uid id)).exchanges
        = db.exchanges.filter (fun e => !(e.id == id && e.userId == uid)) := by
      show (deleteExchange db uid id none).1.exchanges = _
      rw [hstate]; rfl
    have hfilter : db.exchanges.filter (fun e => e.id == id && e.userId == uid) = [old] := by
      refine filter_eq_singleton_of_find? _ _ (fun e => e.id) id ?_ hwf.2 old hfind
      intro x hx
      simp only [Bool.and_eq_true, beq_iff_eq] at hx
      exact hx.1
    show (adj (-old.toAmount) old.toAccountId uid (adj old.fromAmount old.fromAccountId uid a)).balance = _
    rw [adj2_balance_owned _ _ _ _ _ _
          (fun hh => ownedRefN_spec db uid old.fromAccountId hok'.1 a ha hh)
          (fun hh => ownedRefN_spec db uid old.toAccountId hok'.2 a ha hh)]
    simp only [Function.comp_apply]
    rw [adj_id, adj_id]
    unfold accountDelta
    rw [htx, hex, sum_map_filterNot, hfilter]
    have hone : ([old].map (fun e => exchDeltaAt e a.id)).sum = exchDeltaAt old a.id := by simp
    rw [hone]
    have hold := hc a ha
    unfold accountDelta at hold
    rw [hold]
    unfold exchDeltaAt
    rw [if_id_comm (-old.fromAmount) old.fromAccountId a.id,
        if_id_comm old.toAmount old.toAccountId a.id]
    split_ifs <;> ring

lemma nodup_append_singleton {β : Type} [DecidableEq β] (l : List β) (x : β)
    (hl : l.Nodup) (hx : x ∉ l) : (l ++ [x]).Nodup := by
  induction l with
  | nil => simp
  | cons y ys ih =>
    simp only [List.cons_append, List.nodup_cons] at hl ⊢
    refine ⟨?_, ih hl.2 (fun h => hx (List.mem_cons_of_mem _ h))⟩
    simp only [List.mem_append, List.mem_singleton]
    rintro (h | rfl)
    · exact hl.1 h
    · exact hx (List.mem_cons_self _ _)

lemma map_key_of_mapIf {α β : Type} (l : List α) (p : α → Bool) (g : α → α) (key : α → β)
    (hkey : ∀ x, key (g x) = key x) :
    (l.map (fun x => if p x then g x else x)).map key = l.map key := by
  induction l with
  | nil => rfl
  | cons x xs ih =>
    by_cases h : p x = true
    · simp [h, hkey, ih]
    · have h2 : p x = false := by simpa using h
      simp [h2, ih]

lemma WF_applyOp (db : DB) (op : Op) (hwf : db.WF) (hok : opOK db op = true) :
    (applyOp db op).WF := by
  cases op with
  | createTxn uid b newId =>
    have hfresh : ∀ t ∈ db.transactions, t.id ≠ newId := by
      simp only [opOK, Bool.and_eq_true, List.all_eq_true] at hok
      intro t ht
      have := hok.2 t ht
      simpa using this
    constructor
    · show ((applyOp db (Op.createTxn uid b newId)).transactions.map (fun t => t.id)).Nodup
      have htx : (applyOp db (Op.createTxn uid b newId)).transactions
          = db.transactions ++ [mkTxnRecord uid newId b] := by
        show (postTransaction db uid b newId none).1.transactions = _
        rw [postTransaction_state, transactions_adjustBalanceOpt]
      rw [htx, List.map_append]
      refine nodup_append_singleton _ _ hwf.1 ?_
      intro hmem
      obtain ⟨t, ht, hid⟩ := List.mem_map.mp hmem
      exact hfresh t ht hid
    · show ((applyOp db (Op.createTxn uid b newId)).exchanges.map (fun e => e.id)).Nodup
      have hex : (applyOp db (Op.createTxn uid b newId)).exchanges = db.exchanges := by
        show (postTransaction db uid b newId none).1.exchanges = _
        rw [postTransaction_state, exchanges_adjustBalanceOpt]
      rw [hex]; exact hwf.2
  | updateTxn uid id b =>
    cases hfind : findTxn db id uid with
    | none => rw [show applyOp db (.updateTxn uid id b) = db from putTransaction_none_state db uid id b hfind]; exact hwf
    | some old =>
      have hstate := putTransaction_state db uid id b old hfind
      constructor
      · show ((applyOp db (Op.updateTxn uid id b)).transactions.map (fun t => t.id)).Nodup
        have htx : (applyOp db (Op.updateTxn uid id b)).transactions
            = db.transactions.map (fun t => if t.id == id && t.userId == uid then replTxn b t else t) := by
          show (putTransaction db uid id b none).1.transactions = _
          rw [hstate, transactions_adjustBalanceOpt, transactions_updateTxnRecord,
              transactions_adjustBalanceOpt]
        rw [htx, map_key_of_mapIf db.transactions
              (fun t => t.id == id && t.userId == uid) (replTxn b)
              (fun t => t.id) (fun t => rfl)]
        exact hwf.1
      · show ((applyOp db (Op.updateTxn uid id b)).exchanges.map (fun e => e.id)).Nodup
        have hex : (applyOp db (Op.updateTxn uid id b)).exchanges = db.exchanges := by
          show (putTransaction db uid id b none).1.exchanges = _
          rw [hstate, exchanges_adjustBalanceOpt]
          show (adjustBalanceOpt db (reverseDelta old.type old.amount) old.accountId uid).exchanges = _
          rw [exchanges_adjustBalanceOpt]
        rw [hex]; exact hwf.2
  | deleteTxn uid id =>
    cases hfind : findTxn db id uid with
    | none => rw [show applyOp db (.deleteTxn uid id) = db from deleteTransaction_none_state db uid id hfind]; exact hwf
    | some old =>
      have hstate := deleteTransaction_state db uid id old hfind
      constructor
      · show ((applyOp db (Op.deleteTxn uid id)).transactions.map (fun t => t.id)).Nodup
        have htx : (applyOp db (Op.deleteTxn uid id)).transactions
            = db.transactions.filter (fun t => !(t.id == id && t.userId == uid)) := by
          show (deleteTransaction db uid id none).1.transactions = _
          rw [hstate]
          show ((adjustBalanceOpt db (reverseDelta old.type old.amount) old.accountId uid).transactions.filter _) = _
          rw [transactions_adjustBalanceOpt]
        rw [htx]
        have hsub : List.Sublist
            (db.transactions.filter (fun t => !(t.id == id && t.userId == uid)))
            db.transactions := List.filter_sublist _
        exact List.Nodup.sublist (hsub.map (fun t => t.id)) hwf.1
      · show ((applyOp db (Op.deleteTxn uid id)).exchanges.map (fun e => e.id)).Nodup
        have hex : (applyOp db (Op.deleteTxn uid id)).exchanges = db.exchanges := by
          show (deleteTransaction db uid id none).1.exchanges = _
          rw [hstate]
          show (adjustBalanceOpt db (reverseDelta old.type old.amount) old.accountId uid).exchanges = _
          rw [exchanges_adjustBalanceOpt]
        rw [hex]; exact hwf.2
  | createExch uid b newId =>
    have hfresh : ∀ x ∈ db.exchanges, x.id ≠ newId := by
      simp only [opOK, Bool.and_eq_true, List.all_eq_true] at hok
      intro x hx
      have := hok.2 x hx
      simpa using this
    constructor
    · show ((applyOp db (Op.createExch uid b newId)).transactions.map (fun t => t.id)).Nodup
      have htx : (applyOp db (Op.createExch uid b newId)).transactions = db.transactions := by
        show (postExchange db uid b newId none).1.transactions = _
        rw [postExchange_state]
        rfl
      rw [htx]; exact hwf.1
    · show ((applyOp db (Op.createExch uid b newId)).exchanges.map (fun e => e.id)).Nodup
      have hex : (applyOp db (Op.createExch uid b newId)).exchanges
          = db.exchanges ++ [mkExchRecord uid newId b] := by
        show (postExchange db uid b newId none).1.exchanges = _
        rw [postExchange_state]
        rfl
      rw [hex, List.map_append]
      refine nodup_append_singleton _ _ hwf.2 ?_
      intro hmem
      obtain ⟨x, hx, hid⟩ := List.mem_map.mp hmem
      exact hfresh x hx hid
  | updateExch uid id b =>
    cases hfind : findExch db id uid with
    | none => rw [show applyOp db (.updateExch uid id b) = db from putExchange_none_state db uid id b hfind]; exact hwf
    | some old =>
      have hstate := putExchange_state db uid id b old hfind
      constructor
      · show ((applyOp db (Op.updateExch uid id b)).transactions.map (fun t => t.id)).Nodup
        have htx : (applyOp db (Op.updateExch uid id b)).transactions = db.transactions := by
          show (putExchange db uid id b none).1.transactions = _
          rw [hstate]; rfl
        rw [htx]; exact hwf.1
      · show ((applyOp db (Op.updateExch uid id b)).exchanges.map (fun e => e.id)).Nodup
        have hex : (applyOp db (Op.updateExch uid id b)).exchanges
            = db.exchanges.map (fun e => if e.id == id && e.userId == uid then replExch b e else e) := by
          show (putExchange db uid id b none).1.exchanges = _
          rw [hstate]; rfl
        rw [hex, map_key_of_mapIf db.exchanges
              (fun e => e.id == id && e.userId == uid) (replExch b)
              (fun e => e.id) (fun e => rfl)]
        exact hwf.2
  | deleteExch uid id =>
    cases hfind : findExch db id uid with
    | none => rw [show applyOp db (.deleteExch uid id) = db from deleteExchange_none_state db uid id hfind]; exact hwf
    | some old =>
      have hstate := deleteExchange_state db uid id old hfind
      constructor
      · show ((applyOp db (Op.deleteExch uid id)).transactions.map (fun t => t.id)).Nodup
        have htx : (applyOp db (Op.deleteExch uid id)).transactions = db.transactions := by
          show (deleteExchange db uid id none).1.transactions = _
          rw [hstate]; rfl
        rw [htx]; exact hwf.1
      · show ((applyOp db (Op.deleteExch uid id)).exchanges.map (fun e => e.id)).Nodup
        have hex : (applyOp db (Op.deleteExch uid id)).exchanges
            = db.exchanges.filter (fun e => !(e.id == id && e.userId == uid)) := by
          show (deleteExchange db uid id none).1.exchanges = _
          rw [hstate]; rfl
        rw [hex]
        have hsub : List.Sublist
            (db.exchanges.filter (fun e => !(e.id == id && e.userId == uid)))
            db.exchanges := List.filter_sublist _
        exact List.Nodup.sublist (hsub.map (fun e => e.id)) hwf.2

/-- C2: for every account, after any finite sequence of successful
owner-scoped transaction/exchange creates, updates and deletes, the persisted
balance equals the initial balance plus the sum of the signed deltas of all
currently stored transactions and exchange legs referencing that account. -/
theorem ledger_balance_invariant (base : Nat → Rat) (db : DB) (ops : List Op)
    (hwf : db.WF) (hok : opsOK db ops = true) (hc : Consistent base db) :
    Consistent base (runOps db ops) := by
  induction ops generalizing db with
  | nil => exact hc
  | cons op rest ih =>
    simp only [opsOK, Bool.and_eq_true] at hok
    have h1 : Consistent base (applyOp db op) := by
      cases op with
      | createTxn uid b newId => exact consistent_createTxn base db uid b newId hok.1 hc
      | updateTxn uid id b => exact consistent_updateTxn base db uid id b hwf hok.1 hc
      | deleteTxn uid id => exact consistent_deleteTxn base db uid id hwf hok.1 hc
      | createExch uid b newId => exact consistent_createExch base db uid b newId hok.1 hc
      | updateExch uid id b => exact consistent_updateExch base db uid id b hwf hok.1 hc
      | deleteExch uid id => exact consistent_deleteExch base db uid id hwf hok.1 hc
    exact ih (applyOp db op) (WF_applyOp db op hwf hok.1) hok.2 h1

/-- A two-account ledger with zero balances and no records. -/
def dbC : DB :=
  { accounts :=
      [{ id := 1, userId := 1, name := "Conta Corrente BRL", type := "checking",
         currency := "BRL", balance := 0, isEmergencyFund := false },
       { id := 2, userId := 1, name := "Conta EUR", type := "checking",
         currency := "EUR", balance := 0, isEmergencyFund := false }],
    transactions := [], exchanges := [] }

/-- A concrete operation sequence: create an expense on account 1, re-home it
to account 2, create an exchange, delete the exchange, delete the expense. -/
def opsC : List Op :=
  [.createTxn 1 txnBodyW 1, .updateTxn 1 1 txnBodyW2, .createExch 1 exchBodyW 2,
   .deleteExch 1 2, .deleteTxn 1 1]

/-- Witness for C2: the invariant holds after running the concrete sequence
from a consistent initial state. -/
theorem ledger_balance_invariant_witness :
    Consistent (fun _ => 0) (runOps dbC opsC) :=
  ledger_balance_invariant (fun _ => 0) dbC opsC (by decide) (by decide)
    (by intro a ha; fin_cases ha <;> simp [accountDelta, dbC])

/-! ## Dashboard metrics (`GET /api/metrics/dashboard`)

The handler issues six aggregate queries and then computes the per-currency
buckets purely from the returned rows; the pure part is embedded here with
the query results as inputs.  JS objects keyed by currency strings are
modelled as insertion-ordered association lists. -/

/-- A `SELECT currency, SUM(...) ... GROUP BY currency` result row. -/
structure CurrencyRow where
  currency : String
  total : Rat
deriving DecidableEq, Repr

/-- A row of the monthly-transactions aggregate (account currency, transaction
type, summed amount). -/
structure MonthlyRow where
  currency : String
  type : String
  total : Rat
deriving DecidableEq, Repr

/-- `{ income: .., expenses: .. }` accumulator. -/
structure MonthlyAgg where
  income : Rat
  expenses : Rat
deriving DecidableEq, Repr

/-- `{ assets: .., liabilities: .. }` accumulator. -/
structure AssetLiab where
  assets : Rat
  liabilities : Rat
deriving DecidableEq, Repr

/-- The `monthly` sub-object of a metrics bucket (`savingsRate` is rendered
with `toFixed(2)`). -/
structure Monthly where
  income : Rat
  expenses : Rat
  balance : Rat
  savingsRate : String
deriving DecidableEq, Repr

/-- One per-currency metrics bucket of the dashboard response. -/
structure Bucket where
  totalAssets : Rat
  totalLiabilities : Rat
  netWorth : Rat
  debtRatio : Rat
  monthly : Monthly
  emergencyFundMonths : String
  emergencyFundValue : Rat
deriving DecidableEq, Repr

/-- `m[k]` on a JS object modelled as an insertion-ordered list. -/
def lookupKey {α : Type} (m : List (String × α)) (k : String) : Option α :=
  (m.find? (fun p => p.1 == k)).map (fun p => p.2)

/-- In-place update of the value stored at key `k`. -/
def setAt {α : Type} (m : List (String × α)) (k : String) (f : α → α) : List (String × α) :=
  m.map (fun p => if p.1 == k then (p.1, f p.2) else p)

/-- `if (!m[k]) m[k] = init;` (the stored values are objects, always truthy). -/
def ensureKey {α : Type} (m : List (String × α)) (k : String) (init : α) : List (String × α) :=
  if (lookupKey m k).isSome then m else m ++ [(k, init)]

/-- One step of the `monthlyTransactions.rows.forEach` loop. -/
def addMonthlyRow (m : List (String × MonthlyAgg)) (r : MonthlyRow) :
    List (String × MonthlyAgg) :=
  let m := ensureKey m r.currency { income := 0, expenses := 0 }
  if r.type.toLower == "income" then
    setAt m r.currency (fun x => { x with income := x.income + r.total })
  else if r.type.toLower == "expense" then
    setAt m r.currency (fun x => { x with expenses := x.expenses + r.total })
  else m

/-- One step of the asset-side `forEach` loops (accounts, investments,
assets all add into `.assets`). -/
def addAssetRow (m : List (String × AssetLiab)) (r : CurrencyRow) :
    List (String × AssetLiab) :=
  setAt (ensureKey m r.currency { assets := 0, liabilities := 0 }) r.currency
    (fun x => { x with assets := x.assets + r.total })

/-- One step of the liabilities `forEach` loop. -/
def addLiabilityRow (m : List (String × AssetLiab)) (r : CurrencyRow) :
    List (String × AssetLiab) :=
  setAt (ensureKey m r.currency { assets := 0, liabilities := 0 }) r.currency
    (fun x => { x with liabilities := x.liabilities + r.total })

/-- Decimal digit character. -/
def digitChar (d : Nat) : Char := Char.ofNat (48 + d)

/-- Fuel-driven base-10 rendering of a natural number. -/
def natToDecimalAux : Nat → Nat → String
  | 0, _ => ""
  | fuel+1, n =>
    if n < 10 then String.singleton (digitChar n)
    else natToDecimalAux fuel (n / 10) ++ String.singleton (digitChar (n % 10))

/-- Base-10 rendering of a natural number. -/
def natToDecimal (n : Nat) : String := natToDecimalAux (n + 1) n

/-- Zero-pad on the left to `f` digits. -/
def padZeros (s : String) (f : Nat) : String :=
  String.mk (List.replicate (f - s.length) '0') ++ s

/-- `Number.prototype.toFixed(f)`: round to the nearest multiple of
`10^(-f)`, ties to the larger value, and render with exactly `f` decimals. -/
def ratToFixed (f : Nat) (q : Rat) : String :=
  let n : Int := Int.floor (q * (10:Rat)^f + 1/2)
  let m : Nat := n.natAbs
  let ip : Nat := m / 10^f
  let fp : Nat := m % 10^f
  (if n < 0 then "-" else "") ++ natToDecimal ip ++
    (if f = 0 then "" else "." ++ padZeros (natToDecimal fp) f)

/-- `metrics[currency] = { totalAssets, ..., monthly: { ..., savingsRate } }`:
the first bucket-building pass of the handler. -/
def mkBucketPhase1 (data : AssetLiab) (monthly : MonthlyAgg) : Bucket :=
  let balance := monthly.income - monthly.expenses
  let savingsRate : Rat := if monthly.income > 0 then balance / monthly.income * 100 else 0
  { totalAssets := data.assets,
    totalLiabilities := data.liabilities,
    netWorth := data.assets - data.liabilities,
    debtRatio := ((if data.assets > (0 : Rat) then data.liabilities / data.assets * 100 else 0) : Rat),
    monthly := { income := monthly.income, expenses := monthly.expenses,
                 balance := balance, savingsRate := ratToFixed 2 savingsRate },
    emergencyFundMonths := "",
    emergencyFundValue := 0 }

/-- The second pass: `metrics[currency].emergencyFundMonths = ...;
metrics[currency].emergencyFundValue = fund;`. -/
def mkBucketPhase2 (b : Bucket) (fund : Rat) : Bucket :=
  { b with
    emergencyFundMonths :=
      if b.monthly.expenses > 0 then ratToFixed 1 (fund / b.monthly.expenses) else "0.0",
    emergencyFundValue := fund }

/-- The pure computation of `GET /api/metrics/dashboard` from the six query
results, in the order of the handler. -/
def dashboardMetrics (accountRows investmentRows assetRows liabilityRows : List CurrencyRow)
    (monthlyRows : List MonthlyRow) (emergencyRows : List CurrencyRow) :
    List (String × Bucket) :=
  let monthlyByCurrency := monthlyRows.foldl addMonthlyRow []
  let monthlyByCurrency := ensureKey monthlyByCurrency "BRL" { income := 0, expenses := 0 }
  let monthlyByCurrency := ensureKey monthlyByCurrency "EUR" { income := 0, expenses := 0 }
  let byCurrency := accountRows.foldl addAssetRow []
  let byCurrency := investmentRows.foldl addAssetRow byCurrency
  let byCurrency := assetRows.foldl addAssetRow byCurrency
  let byCurrency := liabilityRows.foldl addLiabilityRow byCurrency
  let byCurrency :=
    if byCurrency.isEmpty then [("BRL", ({ assets := 0, liabilities := 0 } : AssetLiab))]
    else byCurrency
  let metrics := byCurrency.map (fun p =>
    (p.1, mkBucketPhase1 p.2
      ((lookupKey monthlyByCurrency p.1).getD { income := 0, expenses := 0 })))
  let emergencyFundByCurrency := emergencyRows.foldl
    (fun m r =>
      if (lookupKey m r.currency).isSome then setAt m r.currency (fun _ => r.total)
      else m ++ [(r.currency, r.total)])
    ([] : List (String × Rat))
  metrics.map (fun p =>
    (p.1, mkBucketPhase2 p.2 ((lookupKey emergencyFundByCurrency p.1).getD 0)))

/-- The handler wraps the pure computation in a success response (the catch
branch is only reachable on a store failure). -/
def getMetricsDashboard (accountRows investmentRows assetRows liabilityRows : List CurrencyRow)
    (monthlyRows : List MonthlyRow) (emergencyRows : List CurrencyRow) :
    ApiResult (List (String × Bucket)) :=
  .ok (dashboardMetrics accountRows investmentRows assetRows liabilityRows monthlyRows
    emergencyRows)

lemma ratToFixed_two_zero : ratToFixed 2 0 = "0.00" := by
  have h : Int.floor ((0:Rat) * (10:Rat)^2 + 1/2) = 0 := by norm_num
  unfold ratToFixed
  rw [h]
  decide

/-- The all-zero base-currency bucket emitted for a user with no data. -/
def emptyBucket : Bucket :=
  { totalAssets := 0, totalLiabilities := 0, netWorth := 0, debtRatio := 0,
    monthly := { income := 0, expenses := 0, balance := 0, savingsRate := "0.00" },
    emergencyFundMonths := "0.0", emergencyFundValue := 0 }

lemma dashboardMetrics_empty :
    dashboardMetrics [] [] [] [] [] [] = [("BRL", emptyBucket)] := by
  simp [dashboardMetrics, ensureKey, lookupKey, emptyBucket, ratToFixed_two_zero,
    mkBucketPhase1, mkBucketPhase2]

lemma bucket_guards (data : AssetLiab) (monthly : MonthlyAgg) (fund : Rat) :
    ((mkBucketPhase2 (mkBucketPhase1 data monthly) fund).totalAssets = 0 →
       (mkBucketPhase2 (mkBucketPhase1 data monthly) fund).debtRatio = 0) ∧
    ((mkBucketPhase2 (mkBucketPhase1 data monthly) fund).monthly.income = 0 →
       (mkBucketPhase2 (mkBucketPhase1 data monthly) fund).monthly.savingsRate = "0.00") ∧
    ((mkBucketPhase2 (mkBucketPhase1 data monthly) fund).monthly.expenses = 0 →
       (mkBucketPhase2 (mkBucketPhase1 data monthly) fund).emergencyFundMonths = "0.0") := by
  unfold mkBucketPhase2 mkBucketPhase1
  simp only
  refine ⟨?_, ?_, ?_⟩ <;> intro h
  · rw [h]
    simp
  · rw [h]
    simp [ratToFixed_two_zero]
  · rw [h]
    simp

/-- C7: in every currency bucket of the dashboard metrics, `debtRatio` is 0
when `totalAssets` is 0, the monthly `savingsRate` renders the number 0
(`"0.00"`, never NaN/Infinity/error) when monthly income is 0, and
`emergencyFundMonths` is `"0.0"` when monthly expenses are 0. -/
theorem metrics_division_guards
    (accR invR assR liaR : List CurrencyRow) (monR : List MonthlyRow) (emR : List CurrencyRow)
    (c : String) (bkt : Bucket)
    (hmem : (c, bkt) ∈ dashboardMetrics accR invR assR liaR monR emR) :
    (bkt.totalAssets = 0 → bkt.debtRatio = 0) ∧
    (bkt.monthly.income = 0 → bkt.monthly.savingsRate = "0.00") ∧
    (bkt.monthly.expenses = 0 → bkt.emergencyFundMonths = "0.0") := by
  simp only [dashboardMetrics, List.mem_map] at hmem
  obtain ⟨q, ⟨p, hp, rfl⟩, hpair⟩ := hmem
  rw [Prod.ext_iff] at hpair
  obtain ⟨hc, hbkt⟩ := hpair
  subst hbkt
  exact bucket_guards _ _ _

/-- Witness for C7: the base-currency bucket of an empty user has zero
assets/income/expenses, and the guards yield 0, `"0.00"` and `"0.0"`. -/
theorem metrics_division_guards_witness :
    emptyBucket.debtRatio = 0 ∧
    emptyBucket.monthly.savingsRate = "0.00" ∧
    emptyBucket.emergencyFundMonths = "0.0" :=
  have h := metrics_division_guards [] [] [] [] [] [] "BRL" emptyBucket
    (by rw [dashboardMetrics_empty]; exact List.mem_singleton.mpr rfl)
  ⟨h.1 rfl, h.2.1 rfl, h.2.2 rfl⟩

/-- C8: a user with no accounts, transactions, investments, assets or
liabilities (all six aggregate queries return no rows) gets a success
response with exactly one bucket, for the base currency BRL, with every
metric zero, `savingsRate` `"0.00"` and `emergencyFundMonths` `"0.0"`. -/
theorem empty_user_dashboard :
    getMetricsDashboard [] [] [] [] [] [] = .ok [("BRL", emptyBucket)] ∧
    emptyBucket =
      { totalAssets := 0, totalLiabilities := 0, netWorth := 0, debtRatio := 0,
        monthly := { income := 0, expenses := 0, balance := 0, savingsRate := "0.00" },
        emergencyFundMonths := "0.0", emergencyFundValue := 0 } := by
  constructor
  · unfold getMetricsDashboard
    rw [dashboardMetrics_empty]
  · rfl

/-! ## Budgets (`POST /api/budgets`)

The `budgets` table carries `UNIQUE(user_id, category_id, month, year,
currency)`.  One server variant inserts plainly (a duplicate key raises a
unique violation, caught and answered as a 500); the other uses
`ON CONFLICT (user_id, category_id, month, year) DO UPDATE` — a conflict
target that matches no unique index of the schema, which Postgres rejects
(42P10) at execution, likewise answered as a 500. -/

/-- A row of the `budgets` table. -/
structure Budget where
  id : Nat
  userId : Nat
  categoryId : Option Nat
  month : Nat
  year : Nat
  limitAmount : Rat
  currency : String
deriving DecidableEq, Repr

/-- Whether two rows collide on the unique constraint
`(user_id, category_id, month, year, currency)`; SQL `NULL`s never collide. -/
def budgetConflict (x y : Budget) : Bool :=
  x.userId == y.userId &&
  (match x.categoryId, y.categoryId with
   | some a, some b => a == b
   | _, _ => false) &&
  x.month == y.month && x.year == y.year && x.currency == y.currency

/-- Plain `INSERT INTO budgets ...` against the unique constraint. -/
def insertBudget (tbl : List Budget) (b : Budget) : Except String (List Budget) :=
  if tbl.any (fun x => budgetConflict x b) then
    .error "duplicate key value violates unique constraint"
  else .ok (tbl ++ [b])

/-- The columns of the table's only unique constraint. -/
def budgetsUniqueCols : List String := ["user_id", "category_id", "month", "year", "currency"]

/-- Set equality of column lists (conflict-target inference ignores order). -/
def sameColumnSet (xs ys : List String) : Bool :=
  xs.all (fun c => ys.contains c) && ys.all (fun c => xs.contains c)

/-- `INSERT ... ON CONFLICT (cols) DO UPDATE SET limit_amount = $5`:
Postgres infers an arbiter index only when the conflict-target columns match
a unique index exactly; otherwise the statement fails (42P10). -/
def insertBudgetOnConflict (tbl : List Budget) (b : Budget) (conflictTarget : List String) :
    Except String (List Budget) :=
  if !(sameColumnSet conflictTarget budgetsUniqueCols) then
    .error "there is no unique or exclusion constraint matching the ON CONFLICT specification"
  else if tbl.any (fun x => budgetConflict x b) then
    .ok (tbl.map (fun x => if budgetConflict x b then { x with limitAmount := b.limitAmount } else x))
  else .ok (tbl ++ [b])

/-- `POST /api/budgets` (plain-INSERT variant): any query error is caught
and answered as a 500. -/
def postBudgetsPlain (tbl : List Budget) (uid newId : Nat) (categoryId : Option Nat)
    (month year : Nat) (limitAmount : Rat) (currency : String) :
    List Budget × ApiResult Budget :=
  let row : Budget :=
    { id := newId, userId := uid, categoryId := categoryId, month := month, year := year,
      limitAmount := limitAmount, currency := currency }
  match insertBudget tbl row with
  | .ok t => (t, .ok row)
  | .error _ => (tbl, .serverError "Erro ao criar orçamento")

/-- `POST /api/budgets` (`ON CONFLICT` variant): the insert names no
`currency` (the column defaults to `'BRL'`) and the conflict target is
`(user_id, category_id, month, year)`. -/
def postBudgetsOnConflict (tbl : List Budget) (uid newId : Nat) (categoryId : Option Nat)
    (month year : Nat) (limitAmount : Rat) : List Budget × ApiResult Budget :=
  let row : Budget :=
    { id := newId, userId := uid, categoryId := categoryId, month := month, year := year,
      limitAmount := limitAmount, currency := "BRL" }
  match insertBudgetOnConflict tbl row ["user_id", "category_id", "month", "year"] with
  | .ok t => (t, .ok row)
  | .error _ => (tbl, .serverError "Erro ao criar orçamento")

/-- A budgets table holding one row for user 1:
(categoryId 1, month 2, year 2026, currency BRL, limit 500). -/
def budgetsW : List Budget :=
  [{ id := 1, userId := 1, categoryId := some 1, month := 2, year := 2026,
     limitAmount := 500, currency := "BRL" }]

/-- C9 (code evaluated at the failing input): creating a budget with the same
(userId, categoryId, month, year, currency) key as the stored row is NOT
resolved by an upsert — the plain-INSERT variant answers a 500 and leaves the
stored limit unchanged, and the `ON CONFLICT` variant likewise fails (its
conflict target matches no unique index of the schema); a non-conflicting
create does succeed. -/
theorem budget_duplicate_key_surfaces_error :
    postBudgetsPlain budgetsW 1 2 (some 1) 2 2026 800 "BRL"
      = (budgetsW, .serverError "Erro ao criar orçamento") ∧
    postBudgetsOnConflict budgetsW 1 2 (some 1) 2 2026 800
      = (budgetsW, .serverError "Erro ao criar orçamento") ∧
    (postBudgetsPlain budgetsW 1 2 (some 2) 2 2026 800 "BRL").2.isOk = true := by
  refine ⟨by decide, by decide, by decide⟩
